import Mathlib

/-!
# node-pty: POSIX spawn engine, exit watcher and Windows pseudo-console engine

A shallow embedding of `src/unix/pty.cc` (`PtyFork`, `PtyOpen`, `PtyResize`,
`pty_nonblock`, `pty_waitpid`), of `src/win/conpty.cc` (`PtyStartProcess`,
`PtyConnect`, `PtyResize`, `PtyKill` over the session registry) and of
`src/win/conpty_console_list.cc`.  System calls are modelled by an oracle record holding what
each call returned; the functions produce the value handed back to the host and
the ordered trace of the system-level events they performed.
-/

namespace NodePty

/-! ## Host values -/

/-- The host (JavaScript) values that reach the native functions.  Numbers are
integer valued; the elements of an array are strings, as `PtyFork` reads them
with `As<Napi::String>()`. -/
inductive JsValue where
  | undefined
  | null
  | boolean (b : Bool)
  | number (n : Int)
  | string (s : String)
  | array (elems : List String)
  | function (ref : Nat)
  | object
  deriving DecidableEq, Repr, Inhabited

namespace JsValue

def IsString : JsValue → Bool
  | string _ => true
  | _ => false

def IsArray : JsValue → Bool
  | array _ => true
  | _ => false

def IsNumber : JsValue → Bool
  | number _ => true
  | _ => false

def IsBoolean : JsValue → Bool
  | boolean _ => true
  | _ => false

def IsFunction : JsValue → Bool
  | function _ => true
  | _ => false

/-- The call `As<Napi::String>().Utf8Value()`. -/
def Utf8Value : JsValue → String
  | string s => s
  | _ => ""

/-- The call `As<Napi::Array>()`, as the list of its elements. -/
def AsArray : JsValue → List String
  | array xs => xs
  | _ => []

/-- The conversion `As<Napi::Number>()` to a C `int` (`Int32Value`): the bottom
32 bits of the number, read as a signed value. -/
def AsInt : JsValue → Int
  | number n => (n + 2147483648) % 4294967296 - 2147483648
  | _ => 0

/-- The call `Uint32Value()`: the bottom 32 bits of the number. -/
def Uint32Value : JsValue → Nat
  | number n => (n % 4294967296).toNat
  | _ => 0

/-- The call `As<Napi::Boolean>().Value()`. -/
def Value : JsValue → Bool
  | boolean b => b
  | _ => false

/-- The call `As<Napi::Function>()`, as the reference it wraps. -/
def AsFunction : JsValue → Nat
  | function r => r
  | _ => 0

end JsValue

/-- The argument list of a native call; `info[i]` past the end is `undefined`. -/
abbrev CallbackInfo := List JsValue

/-- The access `info[i]`. -/
def CallbackInfo.at (info : CallbackInfo) (i : Nat) : JsValue :=
  info.getD i JsValue.undefined

/-! ## C strings -/

/-- The call `strdup(s.c_str())`: the copy stops at the first NUL of `s`. -/
def strdup (s : String) : String :=
  ⟨s.data.takeWhile (fun c => c != Char.ofNat 0)⟩

/-- The call `std::to_string(int)`: signed decimal. -/
def to_string (n : Int) : String :=
  toString n

/-! ## Platform parameters -/

/-- What the platform headers and `comms.h` (which is not among the sources)
define: the spawn capability, the stage codes of the error-report channel, the
errno values and the wait-status macros. -/
structure Platform where
  HAVE_POSIX_SPAWN_CLOEXEC_DEFAULT : Bool
  COMM_ERR_EXEC : Int
  COMM_ERR_CHDIR : Int
  COMM_ERR_SETUID : Int
  COMM_ERR_SETGID : Int
  EINTR : Int
  ECHILD : Int
  EBADF : Int
  EFAULT : Int
  EINVAL : Int
  ENOTTY : Int
  /-- whether `assert` is compiled out -/
  NDEBUG : Bool
  WIFEXITED : Int → Bool
  WEXITSTATUS : Int → Int
  WIFSIGNALED : Int → Bool
  WTERMSIG : Int → Int

/-- A Linux/glibc instance of the platform parameters (release build without
`NDEBUG`), used to evaluate the model on concrete inputs. -/
def linux : Platform where
  HAVE_POSIX_SPAWN_CLOEXEC_DEFAULT := false
  COMM_ERR_EXEC := 1
  COMM_ERR_CHDIR := 2
  COMM_ERR_SETUID := 3
  COMM_ERR_SETGID := 4
  EINTR := 4
  ECHILD := 10
  EBADF := 9
  EFAULT := 14
  EINVAL := 22
  ENOTTY := 25
  NDEBUG := false
  WIFEXITED := fun s => s % 128 == 0
  WEXITSTATUS := fun s => (s / 256) % 256
  WIFSIGNALED := fun s => decide (1 ≤ s % 128 ∧ s % 128 ≤ 126)
  WTERMSIG := fun s => s % 128

/-- A macOS-like instance: the spawn primitive has `POSIX_SPAWN_CLOEXEC_DEFAULT`. -/
def darwin : Platform :=
  { linux with HAVE_POSIX_SPAWN_CLOEXEC_DEFAULT := true }

/-! ## The argument vector of `PtyFork` -/

/-- A `char **` vector: `none` is the `NULL` pointer. -/
abbrev CharPP := List (Option String)

def EXTRA_ARGS : Nat := 5

/-- The loop `for (i = 0; i < argc; i++) argv[i + EXTRA_ARGS] = strdup(arg)`,
started at index `i` with the arguments still to copy. -/
def fillArgs (argv : CharPP) : List String → Nat → CharPP
  | [], _ => argv
  | arg :: rest, i => fillArgs (argv.set (i + EXTRA_ARGS) (some (strdup arg))) rest (i + 1)

/-- Lines 178-201 of `PtyFork`: the vector of `argl = argc + EXTRA_ARGS + 1`
slots, the five leading slots, the terminator, then the caller's arguments. -/
def PtyFork_argv (P : Platform) (file cwd_ : String) (uid gid : Int) (closeFDs : Bool)
    (argv_ : List String) : CharPP :=
  let explicitlyCloseFDs := closeFDs && !P.HAVE_POSIX_SPAWN_CLOEXEC_DEFAULT
  let argc := argv_.length
  let argl := argc + EXTRA_ARGS + 1
  let argv : CharPP := List.replicate argl none
  let argv := argv.set 0 (some (strdup cwd_))
  let argv := argv.set 1 (some (strdup (to_string uid)))
  let argv := argv.set 2 (some (strdup (to_string gid)))
  let argv := argv.set 3 (some (strdup (if explicitlyCloseFDs then "1" else "0")))
  let argv := argv.set 4 (some (strdup file))
  let argv := argv.set (argl - 1) none
  fillArgs argv argv_ 0

/-- The environment vector: one copy per entry, then the terminator. -/
def PtyFork_envp (env_ : List String) : CharPP :=
  env_.map (fun pair => some (strdup pair)) ++ [none]

/-! ## System-call oracle and event trace -/

/-- A signal set, as the list of the signal numbers it holds. -/
abbrev sigset_t := List Nat

/-- What the operating system answered to the calls of one native call. -/
structure Syscalls where
  /-- the set `sigfillset` builds -/
  sigfull : sigset_t
  /-- the mask of the calling thread on entry, as `pthread_sigmask` stores it in `oldmask` -/
  oldmask : sigset_t
  /-- the call `pty_openpty`: `none` for -1, else the master and slave descriptors -/
  openpty : Option (Int × Int)
  /-- the call `pipe`: `none` for failure, else `comms_pipe[0]` and `comms_pipe[1]` -/
  pipe : Option (Int × Int)
  /-- the value `posix_spawn` returns (0 for success) -/
  spawn_error : Int
  /-- the pid `posix_spawn` stores -/
  spawn_pid : Int
  /-- the value `read` returns on the error-report channel -/
  bytes_read : Int
  /-- the contents of `helper_error` after the read -/
  helper_error : Int × Int
  /-- the call `fcntl(fd, F_GETFL, 0)` -/
  getfl : Int → Int
  /-- the call `fcntl(fd, F_SETFL, flags | O_NONBLOCK)`, by descriptor and old flags -/
  setfl : Int → Int → Int
  /-- the call `ptsname(fd)` -/
  ptsname : Int → String
  /-- the call `strerror(errno)` -/
  strerror : Int → String
  /-- the call `ioctl(fd, TIOCSWINSZ, &winp)`: the value returned and `errno` -/
  ioctl : Int → Nat × Nat → Int × Int

/-- The exit-state fields of `struct pty_baton`. -/
structure pty_baton where
  exit_code : Int
  signal_code : Int
  pid : Int
  deriving DecidableEq, Repr

/-- The baton `PtyFork` builds for a spawned pid (lines 339-344). -/
def PtyFork_baton (pid : Int) : pty_baton :=
  { exit_code := 0, signal_code := 0, pid := pid }

/-- The system-level events of a native call, in program order. -/
inductive Event where
  | alloc (buffer : String)
  | free (buffer : String)
  | pthread_sigmask (set : sigset_t)
  | opened (fd : Int)
  | close (fd : Int)
  | posix_spawn (helper_path : String) (argv envp : CharPP) (cloexec_default : Bool)
      (error pid : Int)
  | read (fd : Int) (bytes_read : Int)
  | threw (message : String)
  | uv_thread_create (baton : pty_baton) (cb : Nat)
  deriving DecidableEq, Repr

/-- What a native call hands back to the host. -/
inductive Outcome where
  /-- an object with the given fields was returned -/
  | object (fields : List (String × JsValue))
  /-- the value `undefined` was returned, no exception pending -/
  | undefined
  /-- an exception with this message is pending -/
  | thrown (message : String)
  /-- control reached the end of the function: no exception, no value -/
  | nothing
  deriving DecidableEq, Repr

def Event.isThrew : Event → Bool
  | .threw _ => true
  | _ => false

/-- The signal mask of the thread after a trace, given the mask on entry. -/
def maskAfter (entry : sigset_t) : List Event → sigset_t
  | [] => entry
  | .pthread_sigmask set :: rest => maskAfter set rest
  | _ :: rest => maskAfter entry rest

/-- The descriptors opened during a trace and not closed by it. -/
def openAfter (held : List Int) : List Event → List Int
  | [] => held
  | .opened fd :: rest => openAfter (held ++ [fd]) rest
  | .close fd :: rest => openAfter (held.erase fd) rest
  | _ :: rest => openAfter held rest

/-- The function `throw_for_errno`: the message is the prefix followed by the
text of the error number. -/
def throw_for_errno (os : Syscalls) (message : String) (_errno : Int) : String :=
  message ++ os.strerror _errno

/-- The function `pty_nonblock`. -/
def pty_nonblock (os : Syscalls) (fd : Int) : Int :=
  let flags := os.getfl fd
  if flags == -1 then -1 else os.setfl fd flags

/-- The assignment of `Uint32Value()` to an `unsigned short` field of `winsize`. -/
def ws_field (v : JsValue) : Nat :=
  v.Uint32Value % 65536

/-! ## `PtyFork` -/

/-- The value `sizeof(helper_error)` for `int helper_error[2]` with 4-byte `int`. -/
def sizeof_helper_error : Int := 2 * 4

def PtyFork_usage : String :=
  "Usage: pty.fork(file, args, env, cwd, cols, rows, uid, gid, closeFDs, utf8, onexit, helperPath)"

/-- The guard of lines 143-155. -/
def PtyFork_badArgs (info : CallbackInfo) : Bool :=
  info.length != 12 ||
  !(info.at 0).IsString ||
  !(info.at 1).IsArray ||
  !(info.at 2).IsArray ||
  !(info.at 3).IsString ||
  !(info.at 4).IsNumber ||
  !(info.at 5).IsNumber ||
  !(info.at 6).IsNumber ||
  !(info.at 7).IsNumber ||
  !(info.at 8).IsBoolean ||
  !(info.at 9).IsBoolean ||
  !(info.at 10).IsFunction ||
  !(info.at 11).IsString

/-- The label `done`: the buffers are released; the function then ends without
a return statement. -/
def PtyFork_done : List Event :=
  [Event.free "argv", Event.free "envp", Event.free "helper_path"]

/-- Lines 312-323: a full-size record.  The stage selects the message; a stage
that is none of the four raises nothing. -/
def PtyFork_stage (P : Platform) (os : Syscalls) : Option String :=
  if os.helper_error.1 == P.COMM_ERR_EXEC then
    some (throw_for_errno os "exec() failed: " os.helper_error.2)
  else if os.helper_error.1 == P.COMM_ERR_CHDIR then
    some (throw_for_errno os "chdir() failed: " os.helper_error.2)
  else if os.helper_error.1 == P.COMM_ERR_SETUID then
    some (throw_for_errno os "setuid() failed: " os.helper_error.2)
  else if os.helper_error.1 == P.COMM_ERR_SETGID then
    some (throw_for_errno os "setgid() failed: " os.helper_error.2)
  else
    none

/-- The function `PtyFork`. -/
def PtyFork (P : Platform) (os : Syscalls) (info : CallbackInfo) : Outcome × List Event :=
  if PtyFork_badArgs info then
    (Outcome.thrown PtyFork_usage, [Event.threw PtyFork_usage])
  else
    let file := (info.at 0).Utf8Value
    let envp := PtyFork_envp (info.at 2).AsArray
    let cwd_ := (info.at 3).Utf8Value
    let uid := (info.at 6).AsInt
    let gid := (info.at 7).AsInt
    let closeFDs := (info.at 8).Value
    let argv := PtyFork_argv P file cwd_ uid gid closeFDs (info.at 1).AsArray
    let helper_path := strdup (info.at 11).Utf8Value
    let t0 := [Event.alloc "envp", Event.alloc "argv", Event.alloc "helper_path",
      Event.pthread_sigmask os.sigfull]
    match os.openpty with
    | none =>
      (Outcome.thrown "openpty failed.", t0 ++ [Event.threw "openpty failed."] ++ PtyFork_done)
    | some (master, slave) =>
      let t1 := t0 ++ [Event.opened master, Event.opened slave]
      match os.pipe with
      | none =>
        (Outcome.thrown "pipe() failed.", t1 ++ [Event.threw "pipe() failed."] ++ PtyFork_done)
      | some (comms_pipe0, comms_pipe1) =>
        let pid := os.spawn_pid
        let error := os.spawn_error
        let t2 := t1 ++ [Event.opened comms_pipe0, Event.opened comms_pipe1,
          Event.posix_spawn helper_path argv envp closeFDs error pid,
          Event.close comms_pipe1,
          Event.pthread_sigmask os.oldmask]
        if error != 0 then
          let m := throw_for_errno os "posix_spawn failed: " error
          (Outcome.thrown m, t2 ++ [Event.threw m] ++ PtyFork_done)
        else
          let t3 := t2 ++ [Event.read comms_pipe0 os.bytes_read, Event.close comms_pipe0]
          if os.bytes_read == sizeof_helper_error then
            match PtyFork_stage P os with
            | some m => (Outcome.thrown m, t3 ++ [Event.threw m] ++ PtyFork_done)
            | none => (Outcome.nothing, t3 ++ PtyFork_done)
          else if pty_nonblock os master == -1 then
            let m := "Could not set master fd to nonblocking."
            (Outcome.thrown m, t3 ++ [Event.threw m] ++ PtyFork_done)
          else
            (Outcome.object [("fd", JsValue.number master), ("pid", JsValue.number pid),
                ("pty", JsValue.string (os.ptsname master))],
              t3 ++ [Event.uv_thread_create (PtyFork_baton pid) (info.at 10).AsFunction])

/-! ## `PtyOpen` and `PtyResize` -/

def PtyOpen_usage : String := "Usage: pty.open(cols, rows)"

def PtyOpen_badArgs (info : CallbackInfo) : Bool :=
  info.length != 2 ||
  !(info.at 0).IsNumber ||
  !(info.at 1).IsNumber

/-- The function `PtyOpen`. -/
def PtyOpen (os : Syscalls) (info : CallbackInfo) : Outcome × List Event :=
  if PtyOpen_badArgs info then
    (Outcome.thrown PtyOpen_usage, [Event.threw PtyOpen_usage])
  else
    match os.openpty with
    | none => (Outcome.thrown "openpty(3) failed.", [Event.threw "openpty(3) failed."])
    | some (master, slave) =>
      let t := [Event.opened master, Event.opened slave]
      if pty_nonblock os master == -1 then
        let m := "Could not set master fd to nonblocking."
        (Outcome.thrown m, t ++ [Event.threw m])
      else if pty_nonblock os slave == -1 then
        let m := "Could not set slave fd to nonblocking."
        (Outcome.thrown m, t ++ [Event.threw m])
      else
        (Outcome.object [("master", JsValue.number master), ("slave", JsValue.number slave),
          ("pty", JsValue.string (os.ptsname master))], t)

def PtyResize_usage : String := "Usage: pty.resize(fd, cols, rows)"

def PtyResize_badArgs (info : CallbackInfo) : Bool :=
  info.length != 3 ||
  !(info.at 0).IsNumber ||
  !(info.at 1).IsNumber ||
  !(info.at 2).IsNumber

/-- The function `PtyResize` of `src/unix/pty.cc`. -/
def PtyResize (P : Platform) (os : Syscalls) (info : CallbackInfo) : Outcome × List Event :=
  if PtyResize_badArgs info then
    (Outcome.thrown PtyResize_usage, [Event.threw PtyResize_usage])
  else
    let fd := (info.at 0).AsInt
    let winp := (ws_field (info.at 1), ws_field (info.at 2))
    let r := os.ioctl fd winp
    if r.1 == -1 then
      let m :=
        if r.2 == P.EBADF then "ioctl(2) failed, EBADF"
        else if r.2 == P.EFAULT then "ioctl(2) failed, EFAULT"
        else if r.2 == P.EINVAL then "ioctl(2) failed, EINVAL"
        else if r.2 == P.ENOTTY then "ioctl(2) failed, ENOTTY"
        else "ioctl(2) failed"
      (Outcome.thrown m, [Event.threw m])
    else
      (Outcome.undefined, [])

/-! ## The exit watcher `pty_waitpid` -/

/-- One return of `waitpid(baton->pid, &stat_loc, 0)`: the value returned, `errno`
after the call, and the contents of the local `stat_loc` after the call (what
the call wrote, or what the uninitialised local held when it wrote nothing). -/
structure WaitReturn where
  ret : Int
  errno : Int
  stat_loc : Int
  deriving DecidableEq, Repr

/-- The events of the watcher thread, in program order. -/
inductive WatchEvent where
  | set_exit_code (v : Int)
  | set_signal_code (v : Int)
  | uv_async_send
  | assert_failed
  deriving DecidableEq, Repr

/-- How a run of the watcher ended: it returned, it aborted in `assert`, or
`waitpid` never returned. -/
inductive WatchEnd where
  | returned
  | aborted
  | blocked
  deriving DecidableEq, Repr

structure WatchRun where
  baton : pty_baton
  trace : List WatchEvent
  ending : WatchEnd
  deriving DecidableEq, Repr

/-- Lines 522-530: decode the status into the baton, then notify. -/
def pty_waitpid_decode (P : Platform) (baton : pty_baton) (stat_loc : Int) : WatchRun :=
  let b1 := if P.WIFEXITED stat_loc then
      { baton with exit_code := P.WEXITSTATUS stat_loc } else baton
  let e1 := if P.WIFEXITED stat_loc then
      [WatchEvent.set_exit_code (P.WEXITSTATUS stat_loc)] else []
  let b2 := if P.WIFSIGNALED stat_loc then
      { b1 with signal_code := P.WTERMSIG stat_loc } else b1
  let e2 := if P.WIFSIGNALED stat_loc then
      [WatchEvent.set_signal_code (P.WTERMSIG stat_loc)] else []
  { baton := b2, trace := e1 ++ e2 ++ [WatchEvent.uv_async_send], ending := WatchEnd.returned }

/-- The function `pty_waitpid`, run against the successive returns of `waitpid`:
an interrupted wait recurses, ECHILD falls through to the decode, any other
mismatch reaches `assert(false)`, which aborts unless `NDEBUG` compiled it out.
With no return left the thread is still blocked in `waitpid`. -/
def pty_waitpid (P : Platform) (baton : pty_baton) : List WaitReturn → WatchRun
  | [] => { baton := baton, trace := [], ending := WatchEnd.blocked }
  | w :: rest =>
    if w.ret != baton.pid then
      if w.ret == -1 && w.errno == P.EINTR then
        pty_waitpid P baton rest
      else if w.ret == -1 && w.errno == P.ECHILD then
        pty_waitpid_decode P baton w.stat_loc
      else if P.NDEBUG then
        pty_waitpid_decode P baton w.stat_loc
      else
        { baton := baton, trace := [WatchEvent.assert_failed], ending := WatchEnd.aborted }
    else
      pty_waitpid_decode P baton w.stat_loc

/-- The function `pty_after_waitpid`: the two values handed to the exit callback. -/
def pty_after_waitpid (baton : pty_baton) : Int × Int :=
  (baton.exit_code, baton.signal_code)

/-- The notification a run delivers: the callback arguments, once the async
handle was signalled. -/
def WatchRun.notification (r : WatchRun) : Option (Int × Int) :=
  if WatchEvent.uv_async_send ∈ r.trace then some (pty_after_waitpid r.baton) else none

/-! ## The Windows exit wait (`src/win/conpty.cc`) -/

def WT_EXECUTEDEFAULT : Nat := 0

def WT_EXECUTEONLYONCE : Nat := 8

/-- A wait registered with `RegisterWaitForSingleObject`. -/
structure WaitRegistration where
  hObject : Nat
  context : Nat
  dwFlags : Nat
  active : Bool
  deriving DecidableEq, Repr

/-- Lines 379-380 of `PtyConnect`: the wait registered on the process handle. -/
def PtyConnect_wait (id hProcess : Nat) : WaitRegistration :=
  { hObject := hProcess, context := id, dwFlags := WT_EXECUTEONLYONCE, active := true }

/-- The events of the Windows wait callback. -/
inductive WinEvent where
  | uv_async_send (baton : Nat)
  deriving DecidableEq, Repr

/-- The callback `OnProcessExitWinEvent`. -/
def OnProcessExitWinEvent (context : Nat) : List WinEvent :=
  [WinEvent.uv_async_send context]

/-- One observation of the signalled object by the wait thread, as the platform
documents `RegisterWaitForSingleObject`: an active wait runs its callback; a
wait flagged `WT_EXECUTEONLYONCE` is no longer waited on after the callback ran
once. -/
def waitFires (w : WaitRegistration) : WaitRegistration × List WinEvent :=
  if w.active then
    ({ w with active := w.dwFlags &&& WT_EXECUTEONLYONCE == 0 }, OnProcessExitWinEvent w.context)
  else
    (w, [])

/-- The events of `n` successive observations of the signalled object. -/
def waitFiresN (w : WaitRegistration) : Nat → List WinEvent
  | 0 => []
  | n + 1 => (waitFires w).2 ++ waitFiresN (waitFires w).1 n

/-! ## Predicates used in the statements -/

def WatchEvent.isSetExit : WatchEvent → Bool
  | .set_exit_code _ => true
  | _ => false

def WatchEvent.isSetSignal : WatchEvent → Bool
  | .set_signal_code _ => true
  | _ => false

/-- A wait like the one of `PtyConnect` but registered with `WT_EXECUTEDEFAULT`,
for comparison. -/
def repeatingWait (id hProcess : Nat) : WaitRegistration :=
  { hObject := hProcess, context := id, dwFlags := WT_EXECUTEDEFAULT, active := true }

/-- The kinds of host value the guards tell apart. -/
inductive JsKind where
  | undefined | null | boolean | number | string | array | function | object
  deriving DecidableEq, Repr

/-- The kind of a host value. -/
def JsValue.kind : JsValue → JsKind
  | .undefined => .undefined
  | .null => .null
  | .boolean _ => .boolean
  | .number _ => .number
  | .string _ => .string
  | .array _ => .array
  | .function _ => .function
  | .object => .object

/-- The kinds `fork` is documented to take, in order. -/
def PtyFork_kinds : List JsKind :=
  [.string, .array, .array, .string, .number, .number, .number, .number, .boolean, .boolean,
    .function, .string]

/-- Whether a trace touches a resource: a buffer, the signal mask, a descriptor,
a process or a thread. -/
def Event.touchesResource : Event → Bool
  | .threw _ => false
  | _ => true

/-! ## `pty_openpty` on the `__sun` branch -/

/-- What the calls of the `__sun` branch of `pty_openpty` answered. -/
structure PtmxCalls where
  /-- the call `open("/dev/ptmx", O_RDWR | O_NOCTTY)` -/
  open_ptmx : Int
  grantpt : Int
  unlockpt : Int
  /-- the call `ptsname(master)`: `none` for `NULL` -/
  slave_name : Option String
  /-- the call `open(slave_name, O_RDWR | O_NOCTTY)` -/
  open_slave : Int

/-- The function `pty_openpty`, `__sun` branch: the value returned and the
descriptor events; every failure after the master was opened goes through
`err: close(master)`. -/
def pty_openpty_sun (c : PtmxCalls) : Int × List Event :=
  let master := c.open_ptmx
  if master == -1 then (-1, [])
  else
    let err : Int × List Event := (-1, [Event.opened master, Event.close master])
    if c.grantpt == -1 then err
    else if c.unlockpt == -1 then err
    else
      match c.slave_name with
      | none => err
      | some _ =>
        let slave := c.open_slave
        if slave == -1 then err
        else (0, [Event.opened master, Event.opened slave])

/-! ## Named trace prefix and sample inputs -/

/-- The trace of `PtyFork` up to and including the read of the error-report channel. -/
def PtyFork_upToRead (P : Platform) (os : Syscalls) (info : CallbackInfo)
    (master slave comms_pipe0 comms_pipe1 : Int) : List Event :=
  [Event.alloc "envp", Event.alloc "argv", Event.alloc "helper_path",
    Event.pthread_sigmask os.sigfull, Event.opened master, Event.opened slave,
    Event.opened comms_pipe0, Event.opened comms_pipe1,
    Event.posix_spawn (strdup (info.at 11).Utf8Value)
      (PtyFork_argv P (info.at 0).Utf8Value (info.at 3).Utf8Value (info.at 6).AsInt
        (info.at 7).AsInt (info.at 8).Value (info.at 1).AsArray)
      (PtyFork_envp (info.at 2).AsArray) (info.at 8).Value os.spawn_error os.spawn_pid,
    Event.close comms_pipe1, Event.pthread_sigmask os.oldmask,
    Event.read comms_pipe0 os.bytes_read, Event.close comms_pipe0]

/-- Sample oracle: every call succeeds and the channel is closed with no data. -/
def os0 : Syscalls :=
  { sigfull := [1, 2, 3], oldmask := [], openpty := some (10, 11), pipe := some (12, 13),
    spawn_error := 0, spawn_pid := 4242, bytes_read := 0, helper_error := (0, 0),
    getfl := fun _ => 2, setfl := fun _ _ => 0, ptsname := fun _ => "/dev/pts/7",
    strerror := fun _ => "No such file or directory", ioctl := fun _ _ => (0, 0) }

/-- Sample call of `fork`: `/bin/echo hello` in `/tmp`, 80x24. -/
def info0 : CallbackInfo :=
  [JsValue.string "/bin/echo", JsValue.array ["hello"], JsValue.array ["A=1"],
   JsValue.string "/tmp", JsValue.number 80, JsValue.number 24, JsValue.number (-1),
   JsValue.number (-1), JsValue.boolean true, JsValue.boolean true, JsValue.function 7,
   JsValue.string "/opt/helper"]

/-! ## The Windows pseudo-console engine (`src/win/conpty.cc`) -/

namespace Win

/-- An OS handle value. -/
abbrev HANDLE := Nat

def INVALID_HANDLE_VALUE : HANDLE := 18446744073709551615

/-- The value of a 32-bit `LONG`, `int` or `HRESULT` holding the bottom 32 bits
of `n`. -/
def toLONG (n : Int) : Int :=
  (n + 2147483648) % 4294967296 - 2147483648

/-- The value of a 16-bit `SHORT` holding the bottom 16 bits of `n`. -/
def toSHORT (n : Int) : Int :=
  (n + 32768) % 65536 - 32768

/-- The value of a 32-bit `DWORD` holding the bottom 32 bits of `n`. -/
def toDWORD (n : Int) : Nat :=
  (n % 4294967296).toNat

/-- The macro `HRESULT_FROM_WIN32`. -/
def HRESULT_FROM_WIN32 (x : Nat) : Int :=
  if toLONG x ≤ 0 then toLONG x else toLONG (x % 65536 + 2147942400)

/-- The macro `SUCCEEDED`. -/
def SUCCEEDED (hr : Int) : Bool :=
  decide (0 ≤ hr)

/-- The fields of `struct pty_baton` of `conpty.cc` that the native calls read
and write. -/
structure pty_baton where
  id : Int
  hIn : HANDLE
  hOut : HANDLE
  hpc : HANDLE
  hShell : HANDLE
  hWait : Option WaitRegistration
  cb : Option Nat
  deriving DecidableEq, Repr

/-- The statics `ptyHandles` and `ptyCounter`. -/
structure State where
  ptyHandles : List pty_baton
  ptyCounter : Int
  deriving DecidableEq, Repr

/-- The statics at load time. -/
def State.init : State :=
  { ptyHandles := [], ptyCounter := 0 }

/-- The function `get_pty_baton`: the first entry with the given id. -/
def get_pty_baton : List pty_baton → Int → Option pty_baton
  | [], _ => none
  | ptyHandle :: rest, id => if ptyHandle.id == id then some ptyHandle else get_pty_baton rest id

/-- A write through the pointer `get_pty_baton` returned: the first entry with
the given id is replaced by its image. -/
def update_pty_baton (f : pty_baton → pty_baton) : List pty_baton → Int → List pty_baton
  | [], _ => []
  | ptyHandle :: rest, id =>
    if ptyHandle.id == id then f ptyHandle :: rest
    else ptyHandle :: update_pty_baton f rest id

/-- What `path_util.h` (which is not among the sources) and the operating system
answered during one native call. -/
structure Calls where
  /-- the conversion `path_util::to_wstring` -/
  to_wstring : String → String
  /-- the call `path_util::get_shell_path` -/
  get_shell_path : String → String
  /-- the call `path_util::file_exists` -/
  file_exists : String → Bool
  /-- the call `PathIsRelativeW` -/
  PathIsRelativeW : String → Bool
  /-- whether `LoadLibraryExW(L"kernel32.dll", 0, 0)` returned a module -/
  LoadLibraryExW : Bool
  /-- whether `GetProcAddress` found the named procedure -/
  GetProcAddress : String → Bool
  /-- the call `CreateNamedPipeW`, by pipe name -/
  CreateNamedPipeW : String → HANDLE
  /-- the call `GetLastError` -/
  GetLastError : Nat
  /-- the call through `pfnCreate`: the `HRESULT` and the handle stored in `*phPC` -/
  CreatePseudoConsole : Int × HANDLE
  /-- the contents of a handle variable or field nothing has written yet -/
  uninit : HANDLE
  /-- whether the second `InitializeProcThreadAttributeList` succeeded -/
  InitializeProcThreadAttributeList : Bool
  UpdateProcThreadAttribute : Bool
  /-- the call `CreateProcessW`: `none` for failure, else `hProcess` and `dwProcessId` -/
  CreateProcessW : Option (HANDLE × Nat)

/-- The OS-level events of a Windows native call, in program order. -/
inductive Event where
  | CreateNamedPipeW (name : String) (hServer : HANDLE)
  | CreatePseudoConsole (cols rows : Int) (hIn hOut : HANDLE) (dwFlags : Nat) (hr : Int)
  | ResizePseudoConsole (hpc : HANDLE) (cols rows : Int)
  | ClosePseudoConsole (hpc : HANDLE)
  | ConnectNamedPipe (h : HANDLE)
  | DisconnectNamedPipe (h : HANDLE)
  | CloseHandle (h : HANDLE)
  | CreateProcessW (cmdline : String) (lpEnvironment : Option (List Char)) (cwd : String)
  | RegisterWaitForSingleObject (w : WaitRegistration)
  | threw (message : String)
  deriving DecidableEq, Repr

/-- The function `throwNanError`. -/
def throwNanError (os : Calls) (text : String) (getLastError : Bool) : String :=
  if getLastError then text ++ ", error code: " ++ toString os.GetLastError else text

/-- The result of `createDataServerPipe`: success, the handle and the name. -/
def createDataServerPipe (os : Calls) (kind pipeName : String) : Bool × HANDLE × String :=
  let name := "\\\\.\\pipe\\" ++ pipeName ++ "-" ++ kind
  let hServer := os.CreateNamedPipeW name
  (hServer != INVALID_HANDLE_VALUE, hServer, name)

/-- What `CreateNamedPipesAndPseudoConsole` leaves behind: the `HRESULT`, the
three handles and the two pipe names as the caller sees them, and the events. -/
structure Created where
  hr : Int
  hIn : HANDLE
  hOut : HANDLE
  hpc : HANDLE
  inName : String
  outName : String
  trace : List Event
  deriving DecidableEq, Repr

/-- The function `CreateNamedPipesAndPseudoConsole` (the pointer arguments are
never null in its one caller). -/
def CreateNamedPipesAndPseudoConsole (os : Calls) (cols rows : Int) (dwFlags : Nat)
    (pipeName : String) : Created :=
  let none_ : Created :=
    { hr := HRESULT_FROM_WIN32 os.GetLastError, hIn := os.uninit, hOut := os.uninit,
      hpc := os.uninit, inName := "", outName := "", trace := [] }
  if os.LoadLibraryExW then
    if os.GetProcAddress "CreatePseudoConsole" then
      let pin := createDataServerPipe os "in" pipeName
      let t1 := [Event.CreateNamedPipeW pin.2.2 pin.2.1]
      if !pin.1 then
        { none_ with hIn := pin.2.1, inName := pin.2.2, trace := t1 }
      else
        let pout := createDataServerPipe os "out" pipeName
        let t2 := t1 ++ [Event.CreateNamedPipeW pout.2.2 pout.2.1]
        if !pout.1 then
          { none_ with
            hIn := pin.2.1, inName := pin.2.2, hOut := pout.2.1, outName := pout.2.2,
            trace := t2 }
        else
          { hr := os.CreatePseudoConsole.1, hIn := pin.2.1, hOut := pout.2.1,
            hpc := os.CreatePseudoConsole.2, inName := pin.2.2, outName := pout.2.2,
            trace := t2 ++ [Event.CreatePseudoConsole cols rows pin.2.1 pout.2.1 dwFlags
              os.CreatePseudoConsole.1] }
    else
      none_
  else
    none_

def PtyStartProcess_usage : String :=
  "Usage: pty.startProcess(file, cols, rows, debug, pipeName, inheritCursor)"

def PtyStartProcess_badArgs (info : CallbackInfo) : Bool :=
  info.length != 6 ||
  !(info.at 0).IsString ||
  !(info.at 1).IsNumber ||
  !(info.at 2).IsNumber ||
  !(info.at 3).IsBoolean ||
  !(info.at 4).IsString ||
  !(info.at 5).IsBoolean

/-- Lines 189-196 of `PtyStartProcess`: the path of the executable. -/
def PtyStartProcess_shellpath (os : Calls) (info : CallbackInfo) : String :=
  let filename := os.to_wstring (info.at 0).Utf8Value
  if os.PathIsRelativeW filename then os.get_shell_path filename else filename

/-- Line 209 of `PtyStartProcess`: the call of `CreateNamedPipesAndPseudoConsole`. -/
def PtyStartProcess_create (os : Calls) (info : CallbackInfo) : Created :=
  let cols := toSHORT (info.at 1).Uint32Value
  let rows := toSHORT (info.at 2).Uint32Value
  let pipeName := os.to_wstring (info.at 4).Utf8Value
  let inheritCursor := (info.at 5).Value
  CreateNamedPipesAndPseudoConsole os cols rows (if inheritCursor then 1 else 0) pipeName

/-- The function `PtyStartProcess` (the create phase). -/
def PtyStartProcess (st : State) (os : Calls) (info : CallbackInfo) :
    State × Outcome × List Event :=
  if PtyStartProcess_badArgs info then
    (st, Outcome.thrown PtyStartProcess_usage, [Event.threw PtyStartProcess_usage])
  else
    let shellpath := PtyStartProcess_shellpath os info
    if shellpath.isEmpty || !os.file_exists shellpath then
      let why := "File not found: " ++ shellpath
      (st, Outcome.thrown why, [Event.threw why])
    else
      let c := PtyStartProcess_create os info
      if SUCCEEDED c.hr then
        let ptyId := toLONG (st.ptyCounter + 1)
        let baton : pty_baton :=
          { id := ptyId, hIn := c.hIn, hOut := c.hOut, hpc := c.hpc, hShell := os.uninit,
            hWait := none, cb := none }
        ({ ptyHandles := st.ptyHandles ++ [baton], ptyCounter := ptyId },
          Outcome.object [("pty", JsValue.number ptyId), ("fd", JsValue.number (-1)),
            ("conin", JsValue.string c.inName), ("conout", JsValue.string c.outName)],
          c.trace)
      else
        (st, Outcome.thrown "Cannot launch conpty", c.trace ++ [Event.threw "Cannot launch conpty"])

/-- The call `Napi::Value::IsEmpty()`: whether the handle wraps no value at all.
A value that reached the native function wraps one, whatever its length. -/
def IsEmpty (_ : JsValue) : Bool :=
  false

/-- Lines 309-319 of `PtyConnect`: the string `env`. -/
def PtyConnect_env (os : Calls) (envValues : JsValue) : List Char :=
  if !IsEmpty envValues then
    (envValues.AsArray.map (fun v => (os.to_wstring v).data ++ [Char.ofNat 0])).flatten
      ++ [Char.ofNat 0]
  else
    []

/-- The function `vectorFromString`. -/
def vectorFromString (str : List Char) : List Char :=
  str

/-- Line 321: `envArg` is `nullptr` (here `none`) exactly for an empty vector. -/
def PtyConnect_envArg (os : Calls) (envValues : JsValue) : Option (List Char) :=
  let envV := vectorFromString (PtyConnect_env os envValues)
  if envV.isEmpty then none else some envV

def PtyConnect_usage : String :=
  "Usage: pty.connect(id, cmdline, cwd, env, exitCallback)"

def PtyConnect_badArgs (info : CallbackInfo) : Bool :=
  info.length != 5 ||
  !(info.at 0).IsNumber ||
  !(info.at 1).IsString ||
  !(info.at 2).IsString ||
  !(info.at 3).IsArray ||
  !(info.at 4).IsFunction

/-- Lines 371-380 of `PtyConnect`: the writes to the session found. -/
def PtyConnect_update (hProcess : HANDLE) (exitCallback : Nat) (wait : WaitRegistration)
    (handle : pty_baton) : pty_baton :=
  { handle with hShell := hProcess, cb := some exitCallback, hWait := some wait }

/-- The function `PtyConnect` (the connect phase). -/
def PtyConnect (st : State) (os : Calls) (info : CallbackInfo) :
    State × Outcome × List Event :=
  if PtyConnect_badArgs info then
    (st, Outcome.thrown PtyConnect_usage, [Event.threw PtyConnect_usage])
  else
    let id := (info.at 0).AsInt
    let cmdline := os.to_wstring (info.at 1).Utf8Value
    let cwd := os.to_wstring (info.at 2).Utf8Value
    match get_pty_baton st.ptyHandles id with
    | none => (st, Outcome.thrown "Invalid pty handle", [Event.threw "Invalid pty handle"])
    | some handle =>
      let envArg := PtyConnect_envArg os (info.at 3)
      let t := [Event.ConnectNamedPipe handle.hIn, Event.ConnectNamedPipe handle.hOut]
      if !os.InitializeProcThreadAttributeList then
        let m := throwNanError os "InitializeProcThreadAttributeList failed" true
        (st, Outcome.thrown m, t ++ [Event.threw m])
      else if !os.UpdateProcThreadAttribute then
        let m := throwNanError os "UpdateProcThreadAttribute failed" true
        (st, Outcome.thrown m, t ++ [Event.threw m])
      else
        match os.CreateProcessW with
        | none =>
          let m := throwNanError os "Cannot create process" true
          (st, Outcome.thrown m, t ++ [Event.CreateProcessW cmdline envArg cwd, Event.threw m])
        | some (hProcess, dwProcessId) =>
          let wait := PtyConnect_wait handle.id.toNat hProcess
          let handles := update_pty_baton
            (PtyConnect_update hProcess (info.at 4).AsFunction wait) st.ptyHandles id
          ({ st with ptyHandles := handles },
            Outcome.object [("pid", JsValue.number dwProcessId)],
            t ++ [Event.CreateProcessW cmdline envArg cwd,
              Event.RegisterWaitForSingleObject wait])

def PtyResize_usage : String := "Usage: pty.resize(id, cols, rows)"

def PtyResize_badArgs (info : CallbackInfo) : Bool :=
  info.length != 3 ||
  !(info.at 0).IsNumber ||
  !(info.at 1).IsNumber ||
  !(info.at 2).IsNumber

/-- The function `PtyResize` of `conpty.cc`: an id that is not in the registry,
a missing library or a missing procedure skip the call; the result of the call
is not looked at. -/
def PtyResize (st : State) (os : Calls) (info : CallbackInfo) :
    State × Outcome × List Event :=
  if PtyResize_badArgs info then
    (st, Outcome.thrown PtyResize_usage, [Event.threw PtyResize_usage])
  else
    let id := (info.at 0).AsInt
    let cols := toSHORT (info.at 1).Uint32Value
    let rows := toSHORT (info.at 2).Uint32Value
    match get_pty_baton st.ptyHandles id with
    | some handle =>
      if os.LoadLibraryExW && os.GetProcAddress "ResizePseudoConsole" then
        (st, Outcome.undefined, [Event.ResizePseudoConsole handle.hpc cols rows])
      else
        (st, Outcome.undefined, [])
    | none => (st, Outcome.undefined, [])

def PtyKill_usage : String := "Usage: pty.kill(id)"

def PtyKill_badArgs (info : CallbackInfo) : Bool :=
  info.length != 1 ||
  !(info.at 0).IsNumber

/-- The function `PtyKill`: the entry stays in `ptyHandles` and its fields are
left as they are. -/
def PtyKill (st : State) (os : Calls) (info : CallbackInfo) :
    State × Outcome × List Event :=
  if PtyKill_badArgs info then
    (st, Outcome.thrown PtyKill_usage, [Event.threw PtyKill_usage])
  else
    let id := (info.at 0).AsInt
    match get_pty_baton st.ptyHandles id with
    | some handle =>
      let t0 := if os.LoadLibraryExW && os.GetProcAddress "ClosePseudoConsole" then
          [Event.ClosePseudoConsole handle.hpc] else []
      (st, Outcome.undefined, t0 ++ [Event.DisconnectNamedPipe handle.hIn,
        Event.DisconnectNamedPipe handle.hOut, Event.CloseHandle handle.hIn,
        Event.CloseHandle handle.hOut, Event.CloseHandle handle.hShell])
    | none => (st, Outcome.undefined, [])

/-- One call into the Windows module, with what the system answers during it. -/
inductive Call where
  | startProcess (os : Calls) (info : CallbackInfo)
  | connect (os : Calls) (info : CallbackInfo)
  | resize (os : Calls) (info : CallbackInfo)
  | kill (os : Calls) (info : CallbackInfo)

/-- The effect of one call on the statics, with its result and events. -/
def step (st : State) : Call → State × Outcome × List Event
  | .startProcess os info => PtyStartProcess st os info
  | .connect os info => PtyConnect st os info
  | .resize os info => PtyResize st os info
  | .kill os info => PtyKill st os info

/-- The statics after a sequence of calls. -/
def run (st : State) : List Call → State
  | [] => st
  | c :: rest => run (step st c).1 rest

/-- The events of a sequence of calls, in order. -/
def runTrace (st : State) : List Call → List Event
  | [] => []
  | c :: rest => (step st c).2.2 ++ runTrace (step st c).1 rest

/-- The ids held in the registry, in registry order. -/
def State.ids (st : State) : List Int :=
  st.ptyHandles.map (fun h => h.id)

/-- The registry invariant: the counter is the number of entries read as a
`LONG`, and the k-th entry (from 0) holds the id `k + 1` read as a `LONG`. -/
def Inv (st : State) : Prop :=
  st.ptyCounter = toLONG st.ptyHandles.length ∧
    st.ids = (List.range st.ptyHandles.length).map (fun k : Nat => toLONG ((k : Int) + 1))

/-- The strings of an environment block, read the way process creation reads
it: NUL-terminated strings up to the first empty one. -/
def envBlockStrings : List Char → List Char → List (List Char)
  | [], _ => []
  | c :: rest, cur =>
    if c = Char.ofNat 0 then
      if cur = [] then [] else cur.reverse :: envBlockStrings rest []
    else
      envBlockStrings rest (c :: cur)

end Win

/-! ## The console process list (`src/win/conpty_console_list.cc`) -/

namespace ConsoleList

/-- What the console API answered during one call. -/
structure Calls where
  /-- the first call `FreeConsole()` -/
  FreeConsole : Bool
  /-- the call `AttachConsole`, by the process id it was given -/
  AttachConsole : Nat → Bool
  /-- the ids `GetConsoleProcessList` reports for the console attached to -/
  processList : List Nat

inductive Event where
  | FreeConsole
  | AttachConsole (dwProcessId : Nat)
  | GetConsoleProcessList (dwProcessCount : Nat)
  | threw (message : String)
  deriving DecidableEq, Repr

def usage : String := "Usage: getConsoleProcessList(shellPid)"

def badArgs (info : CallbackInfo) : Bool :=
  info.length != 1 ||
  !(info.at 0).IsNumber

/-- The function `ApiConsoleProcessList`.  The two failure branches throw and
fall through, so the console calls that follow are made all the same; the
exception pending at the end is the first one thrown. -/
def ApiConsoleProcessList (os : Calls) (info : CallbackInfo) : Outcome × List Event :=
  if badArgs info then
    (Outcome.thrown usage, [Event.threw usage])
  else
    let pid := Win.toSHORT (info.at 0).Uint32Value
    let t1 := [Event.FreeConsole] ++
      (if !os.FreeConsole then [Event.threw "FreeConsole failed"] else [])
    let attached := os.AttachConsole (Win.toDWORD pid)
    let t2 := t1 ++ [Event.AttachConsole (Win.toDWORD pid)] ++
      (if !attached then [Event.threw "AttachConsole failed"] else [])
    let processCount := os.processList.length
    let t3 := t2 ++ [Event.GetConsoleProcessList 64] ++
      (if 64 < processCount then [Event.GetConsoleProcessList processCount] else []) ++
      [Event.FreeConsole]
    let result := Outcome.object
      (os.processList.enum.map (fun p => (toString p.1, JsValue.number p.2)))
    if !os.FreeConsole then (Outcome.thrown "FreeConsole failed", t3)
    else if !attached then (Outcome.thrown "AttachConsole failed", t3)
    else (result, t3)

/-- The process id the call attaches to, read off the trace. -/
def attachedTo : List Event → Option Nat
  | [] => none
  | .AttachConsole p :: _ => some p
  | _ :: rest => attachedTo rest

end ConsoleList

/-! ## Terminal geometry -/

/-- The `struct winsize`. -/
structure winsize where
  ws_row : Nat
  ws_col : Nat
  ws_xpixel : Nat
  ws_ypixel : Nat
  deriving DecidableEq, Repr

/-- Lines 430-434 of `PtyResize` (`pty.cc`): the `winsize` handed to `ioctl`. -/
def PtyResize_winp (info : CallbackInfo) : winsize :=
  { ws_col := ws_field (info.at 1), ws_row := ws_field (info.at 2), ws_xpixel := 0,
    ws_ypixel := 0 }

/-- The geometry of the terminal after `PtyResize`: a `TIOCSWINSZ` that
succeeded stored the `winsize` it was given, any other call left the geometry
as it was. -/
def ttyAfterResize (P : Platform) (os : Syscalls) (info : CallbackInfo) (tty : winsize) :
    winsize :=
  if (PtyResize P os info).1 = Outcome.undefined then PtyResize_winp info else tty

/-! ## Children and watchers of a `PtyFork` trace -/

/-- The pids `PtyFork` spawned (the spawn primitive returned 0). -/
def spawnedPids : List Event → List Int
  | [] => []
  | .posix_spawn _ _ _ _ error pid :: rest =>
    if error == 0 then pid :: spawnedPids rest else spawnedPids rest
  | _ :: rest => spawnedPids rest

/-- The pids an exit watcher was started for. -/
def watchedPids : List Event → List Int
  | [] => []
  | .uv_thread_create baton _ :: rest => baton.pid :: watchedPids rest
  | _ :: rest => watchedPids rest

/-! ## Sample Windows inputs -/

/-- Sample answers: every call succeeds; pipe handles 100 and 101, pseudo-console
handle 200, process handle 300 with pid 4321. -/
def winCalls0 : Win.Calls :=
  { to_wstring := fun s => s, get_shell_path := fun s => "C:\\Windows\\System32\\" ++ s,
    file_exists := fun _ => true, PathIsRelativeW := fun _ => true, LoadLibraryExW := true,
    GetProcAddress := fun _ => true,
    CreateNamedPipeW := fun name => if name = "\\\\.\\pipe\\conpty-1-in" then 100 else 101,
    GetLastError := 0, CreatePseudoConsole := (0, 200), uninit := 7777,
    InitializeProcThreadAttributeList := true, UpdateProcThreadAttribute := true,
    CreateProcessW := some (300, 4321) }

/-- Sample call of `startProcess`: `cmd.exe`, 80x24. -/
def winInfo0 : CallbackInfo :=
  [JsValue.string "cmd.exe", JsValue.number 80, JsValue.number 24, JsValue.boolean false,
   JsValue.string "conpty-1", JsValue.boolean false]

/-- Sample call of `connect` for session 1. -/
def winConnect1 : CallbackInfo :=
  [JsValue.number 1, JsValue.string "cmd.exe", JsValue.string "C:\\", JsValue.array ["A=1", "B=2"],
   JsValue.function 9]

/-- Sample answers for an OS build without the pseudo-console API
(`GetLastError` is `ERROR_PROC_NOT_FOUND`). -/
def winCallsNoApi : Win.Calls :=
  { winCalls0 with GetProcAddress := fun _ => false, GetLastError := 127 }

/-- Sample answers where the first named pipe cannot be created
(`GetLastError` is `ERROR_ACCESS_DENIED`). -/
def winCallsNoPipe : Win.Calls :=
  { winCalls0 with CreateNamedPipeW := fun _ => Win.INVALID_HANDLE_VALUE, GetLastError := 5 }

/-- Sample answers where `CreatePseudoConsole` itself fails with `E_FAIL`. -/
def winCallsNoConsole : Win.Calls :=
  { winCalls0 with CreatePseudoConsole := (-2147467259, 0) }

/-- The registry after the sample create and connect: session 1, connected. -/
def winConnected : Win.State :=
  Win.run Win.State.init
    [Win.Call.startProcess winCalls0 winInfo0, Win.Call.connect winCalls0 winConnect1]

/-- The number of `CloseHandle` calls on a handle in a trace. -/
def closeCount (h : Win.HANDLE) (t : List Win.Event) : Nat :=
  t.count (Win.Event.CloseHandle h)

/-- The number of `ClosePseudoConsole` calls on a handle in a trace. -/
def closeConsoleCount (h : Win.HANDLE) (t : List Win.Event) : Nat :=
  t.count (Win.Event.ClosePseudoConsole h)

/-- Sample console answers: the console of the attached process holds two ids. -/
def consoleCalls0 : ConsoleList.Calls :=
  { FreeConsole := true, AttachConsole := fun _ => true, processList := [1, 2] }

/-! # Theorems -/

/-! ## Facts about C strings -/

theorem strdup_eq_self (s : String) (h : ∀ c ∈ s.data, c ≠ Char.ofNat 0) : strdup s = s := by
  unfold strdup
  have : s.data.takeWhile (fun c => c != Char.ofNat 0) = s.data := by
    rw [List.takeWhile_eq_self_iff]
    intro c hc
    simpa using h c hc
  rw [this]

theorem digitChar_ne_nul (d : Nat) : Nat.digitChar d ≠ Char.ofNat 0 := by
  by_cases h : d < 16
  · interval_cases d <;> decide
  · have hstar : Nat.digitChar d = '*' := by
      unfold Nat.digitChar
      repeat rw [if_neg (by omega)]
    rw [hstar]
    decide

theorem toDigitsCore_no_nul (fuel n : Nat) (acc : List Char)
    (hacc : ∀ c ∈ acc, c ≠ Char.ofNat 0) :
    ∀ c ∈ Nat.toDigitsCore 10 fuel n acc, c ≠ Char.ofNat 0 := by
  induction fuel generalizing n acc with
  | zero => simpa [Nat.toDigitsCore] using hacc
  | succ f ih =>
    unfold Nat.toDigitsCore
    simp only []
    split
    · intro c hc
      simp only [List.mem_cons] at hc
      rcases hc with rfl | hc
      · exact digitChar_ne_nul _
      · exact hacc c hc
    · apply ih
      intro c hc
      simp only [List.mem_cons] at hc
      rcases hc with rfl | hc
      · exact digitChar_ne_nul _
      · exact hacc c hc

theorem nat_repr_no_nul (n : Nat) : ∀ c ∈ (Nat.repr n).data, c ≠ Char.ofNat 0 := by
  unfold Nat.repr Nat.toDigits
  simp only [List.asString]
  exact toDigitsCore_no_nul _ _ _ (by simp)

theorem to_string_no_nul (n : Int) : ∀ c ∈ (to_string n).data, c ≠ Char.ofNat 0 := by
  unfold to_string
  cases n with
  | ofNat m =>
    show ∀ c ∈ (Nat.repr m).data, _
    exact nat_repr_no_nul m
  | negSucc m =>
    show ∀ c ∈ ("-" ++ Nat.repr (Nat.succ m)).data, _
    intro c hc
    rw [String.data_append] at hc
    rcases List.mem_append.mp hc with h | h
    · have : c = '-' := by simpa using h
      subst this
      decide
    · exact nat_repr_no_nul _ c h

theorem strdup_to_string (n : Int) : strdup (to_string n) = to_string n :=
  strdup_eq_self _ (to_string_no_nul n)

/-! ## The argument vector -/

theorem fillArgs_spec (args : List String) :
    ∀ (pre mid post : CharPP) (i : Nat), pre.length = i + EXTRA_ARGS →
      mid.length = args.length →
      fillArgs (pre ++ mid ++ post) args i
        = pre ++ args.map (fun a => some (strdup a)) ++ post := by
  induction args with
  | nil =>
    intro pre mid post i _ hmid
    have : mid = [] := List.length_eq_zero.mp (by simpa using hmid)
    simp [fillArgs, this]
  | cons a rest ih =>
    intro pre mid post i hpre hmid
    cases mid with
    | nil => simp at hmid
    | cons m mid' =>
      simp only [List.length_cons, Nat.add_right_cancel_iff] at hmid
      have hset : (pre ++ m :: mid' ++ post).set (i + EXTRA_ARGS) (some (strdup a))
          = (pre ++ [some (strdup a)]) ++ mid' ++ post := by
        rw [← hpre]
        simp [List.set_append]
      unfold fillArgs
      rw [hset, ih (pre ++ [some (strdup a)]) mid' post (i + 1) (by simp [hpre]; omega) hmid]
      simp

theorem PtyFork_argv_eq (P : Platform) (file cwd_ : String) (uid gid : Int) (closeFDs : Bool)
    (argv_ : List String) :
    PtyFork_argv P file cwd_ uid gid closeFDs argv_
      = [some (strdup cwd_), some (to_string uid), some (to_string gid),
          some (if closeFDs && !P.HAVE_POSIX_SPAWN_CLOEXEC_DEFAULT then "1" else "0"),
          some (strdup file)]
        ++ argv_.map (fun a => some (strdup a)) ++ [none] := by
  have hflag : strdup (if closeFDs && !P.HAVE_POSIX_SPAWN_CLOEXEC_DEFAULT then "1" else "0")
      = (if closeFDs && !P.HAVE_POSIX_SPAWN_CLOEXEC_DEFAULT then "1" else "0") := by
    split <;> decide
  have hinit : ∀ (x0 x1 x2 x3 x4 : Option String),
      ((((((List.replicate (argv_.length + EXTRA_ARGS + 1) (none : Option String)).set 0 x0).set 1
        x1).set 2 x2).set 3 x3).set 4 x4).set (argv_.length + EXTRA_ARGS + 1 - 1) none
      = [x0, x1, x2, x3, x4] ++ List.replicate argv_.length none ++ [none] := by
    intro x0 x1 x2 x3 x4
    have : List.replicate (argv_.length + EXTRA_ARGS + 1) (none : Option String)
        = [none, none, none, none, none] ++ (List.replicate argv_.length none ++ [none]) := by
      rw [List.replicate_succ', Nat.add_comm argv_.length, List.replicate_add]
      simp [EXTRA_ARGS, List.replicate]
    rw [this]
    have hlen : argv_.length + EXTRA_ARGS + 1 - 1 = argv_.length + 5 := by
      simp [EXTRA_ARGS]
    rw [hlen]
    simp [List.set_append]
  unfold PtyFork_argv
  simp only []
  rw [hinit, fillArgs_spec argv_ _ _ _ 0 (by simp [EXTRA_ARGS]) (by simp)]
  rw [strdup_to_string, strdup_to_string, hflag]

/-- C1: the vector handed to the helper is the five synthetic arguments (working
directory, uid and gid in decimal, explicit-close flag, target path) followed by
the caller's arguments in order and the terminator; each entry is the C-string
copy of its value, which is the value itself when it holds no NUL.  Caller
argument `i` is at index `i + 5`, there are `n + 5` entries before the
terminator, and the flag is "1" exactly when close-descriptors was requested on
a platform without the close-on-exec-by-default spawn flag, otherwise "0". -/
theorem PtyFork_argv_layout (P : Platform) (file cwd_ : String) (uid gid : Int)
    (closeFDs : Bool) (argv_ : List String) :
    PtyFork_argv P file cwd_ uid gid closeFDs argv_
        = [some (strdup cwd_), some (to_string uid), some (to_string gid),
            some (if closeFDs && !P.HAVE_POSIX_SPAWN_CLOEXEC_DEFAULT then "1" else "0"),
            some (strdup file)]
          ++ argv_.map (fun a => some (strdup a)) ++ [none]
    ∧ (PtyFork_argv P file cwd_ uid gid closeFDs argv_).length = argv_.length + 5 + 1
    ∧ (∀ (i : Nat) (h : i < argv_.length),
        (PtyFork_argv P file cwd_ uid gid closeFDs argv_)[i + 5]?
          = some (some (strdup (argv_.get ⟨i, h⟩))))
    ∧ (PtyFork_argv P file cwd_ uid gid closeFDs argv_)[argv_.length + 5]? = some none
    ∧ ((PtyFork_argv P file cwd_ uid gid closeFDs argv_)[3]? = some (some "1")
        ↔ (closeFDs = true ∧ P.HAVE_POSIX_SPAWN_CLOEXEC_DEFAULT = false))
    ∧ ((PtyFork_argv P file cwd_ uid gid closeFDs argv_)[3]? = some (some "0")
        ↔ ¬ (closeFDs = true ∧ P.HAVE_POSIX_SPAWN_CLOEXEC_DEFAULT = false))
    ∧ ((∀ c ∈ cwd_.data, c ≠ Char.ofNat 0) → (∀ c ∈ file.data, c ≠ Char.ofNat 0) →
        (∀ a ∈ argv_, ∀ c ∈ a.data, c ≠ Char.ofNat 0) →
        PtyFork_argv P file cwd_ uid gid closeFDs argv_
          = [some cwd_, some (to_string uid), some (to_string gid),
              some (if closeFDs && !P.HAVE_POSIX_SPAWN_CLOEXEC_DEFAULT then "1" else "0"),
              some file]
            ++ argv_.map some ++ [none]) := by
  rw [PtyFork_argv_eq]
  refine ⟨rfl, by simp, ?_, ?_, ?_, ?_, ?_⟩
  · intro i h
    rw [List.append_assoc, List.getElem?_append_right (by simp)]
    simp [List.getElem?_append, h]
  · rw [List.getElem?_append_right (by simp)]
    simp
  · cases closeFDs <;> cases P.HAVE_POSIX_SPAWN_CLOEXEC_DEFAULT <;> simp
  · cases closeFDs <;> cases P.HAVE_POSIX_SPAWN_CLOEXEC_DEFAULT <;> simp
  · intro hcwd hfile hargs
    rw [strdup_eq_self cwd_ hcwd, strdup_eq_self file hfile]
    have : argv_.map (fun a => some (strdup a)) = argv_.map some := by
      apply List.map_congr_left
      intro a ha
      rw [strdup_eq_self a (hargs a ha)]
    rw [this]

/-- Sample vectors: the explicit-close flag is "1" on a platform without the
close-on-exec-by-default spawn flag and "0" on one that has it. -/
theorem PtyFork_argv_samples :
    PtyFork_argv linux "/bin/ls" "/tmp" 1000 (-1) true ["-l", "a b"]
        = [some "/tmp", some "1000", some "-1", some "1", some "/bin/ls", some "-l",
            some "a b", none]
    ∧ PtyFork_argv darwin "/bin/ls" "/tmp" 1000 (-1) true ["-l", "a b"]
        = [some "/tmp", some "1000", some "-1", some "0", some "/bin/ls", some "-l",
            some "a b", none]
    ∧ PtyFork_argv linux "/bin/ls" "/tmp" 0 0 false []
        = [some "/tmp", some "0", some "0", some "0", some "/bin/ls", none] := by
  refine ⟨?_, ?_, ?_⟩ <;> decide

/-- The vector of the spawn event of `PtyFork` is the vector built from the
call's arguments. -/
theorem PtyFork_spawn_event (P : Platform) (os : Syscalls) (info : CallbackInfo)
    (m s r w : Int) (hargs : PtyFork_badArgs info = false) (hpty : os.openpty = some (m, s))
    (hpipe : os.pipe = some (r, w)) :
    Event.posix_spawn (strdup (info.at 11).Utf8Value)
        (PtyFork_argv P (info.at 0).Utf8Value (info.at 3).Utf8Value (info.at 6).AsInt
          (info.at 7).AsInt (info.at 8).Value (info.at 1).AsArray)
        (PtyFork_envp (info.at 2).AsArray) (info.at 8).Value os.spawn_error os.spawn_pid
      ∈ (PtyFork P os info).2 := by
  simp only [PtyFork, hargs, hpty, hpipe]
  by_cases hsp : os.spawn_error = 0
  · by_cases hfull : os.bytes_read = sizeof_helper_error
    · cases hst : PtyFork_stage P os <;> simp [hsp, hfull, hst]
    · by_cases hnb : pty_nonblock os m = -1 <;> simp [hsp, hfull, hnb]
  · simp [hsp]

/-! ## `PtyFork` after the spawn primitive succeeded -/

theorem PtyFork_full_read (P : Platform) (os : Syscalls) (info : CallbackInfo)
    (m s r w : Int) (hargs : PtyFork_badArgs info = false) (hpty : os.openpty = some (m, s))
    (hpipe : os.pipe = some (r, w)) (hsp : os.spawn_error = 0)
    (hfull : os.bytes_read = sizeof_helper_error) :
    PtyFork P os info =
      match PtyFork_stage P os with
      | some msg => (Outcome.thrown msg,
          PtyFork_upToRead P os info m s r w ++ [Event.threw msg] ++ PtyFork_done)
      | none => (Outcome.nothing, PtyFork_upToRead P os info m s r w ++ PtyFork_done) := by
  simp only [PtyFork, hargs, hpty, hpipe, hsp, hfull, PtyFork_upToRead]
  cases PtyFork_stage P os <;> simp

theorem PtyFork_short_read_eq (P : Platform) (os : Syscalls) (info : CallbackInfo)
    (m s r w : Int) (hargs : PtyFork_badArgs info = false) (hpty : os.openpty = some (m, s))
    (hpipe : os.pipe = some (r, w)) (hsp : os.spawn_error = 0)
    (hshort : os.bytes_read ≠ sizeof_helper_error) :
    PtyFork P os info =
      if pty_nonblock os m = -1 then
        (Outcome.thrown "Could not set master fd to nonblocking.",
          PtyFork_upToRead P os info m s r w
            ++ [Event.threw "Could not set master fd to nonblocking."] ++ PtyFork_done)
      else
        (Outcome.object [("fd", JsValue.number m), ("pid", JsValue.number os.spawn_pid),
            ("pty", JsValue.string (os.ptsname m))],
          PtyFork_upToRead P os info m s r w
            ++ [Event.uv_thread_create (PtyFork_baton os.spawn_pid) (info.at 10).AsFunction]) := by
  simp only [PtyFork, hargs, hpty, hpipe, hsp, PtyFork_upToRead]
  simp [hshort]

theorem isThrew_upToRead (P : Platform) (os : Syscalls) (info : CallbackInfo) (m s r w : Int) :
    ∀ e ∈ PtyFork_upToRead P os info m s r w, e.isThrew = false := by
  intro e he
  simp only [PtyFork_upToRead, List.mem_cons, List.mem_singleton, List.not_mem_nil,
    or_false] at he
  rcases he with h | h | h | h | h | h | h | h | h | h | h | h | h <;> subst h <;> rfl

theorem isThrew_done : ∀ e ∈ PtyFork_done, e.isThrew = false := by
  intro e he
  simp only [PtyFork_done, List.mem_cons, List.mem_singleton, List.not_mem_nil,
    or_false] at he
  rcases he with h | h | h <;> subst h <;> rfl

/-- A full-size record whose stage is one of the four known stages raises the
error of that stage, built from the text of the reported error number. -/
theorem PtyFork_known_stage (P : Platform) (os : Syscalls) (info : CallbackInfo)
    (m s r w : Int) (hargs : PtyFork_badArgs info = false) (hpty : os.openpty = some (m, s))
    (hpipe : os.pipe = some (r, w)) (hsp : os.spawn_error = 0)
    (hfull : os.bytes_read = sizeof_helper_error)
    (hstage : os.helper_error.1 = P.COMM_ERR_EXEC ∨ os.helper_error.1 = P.COMM_ERR_CHDIR ∨
      os.helper_error.1 = P.COMM_ERR_SETUID ∨ os.helper_error.1 = P.COMM_ERR_SETGID) :
    ∃ stage ∈ ["exec() failed: ", "chdir() failed: ", "setuid() failed: ", "setgid() failed: "],
      (PtyFork P os info).1 = Outcome.thrown (stage ++ os.strerror os.helper_error.2) := by
  rw [PtyFork_full_read P os info m s r w hargs hpty hpipe hsp hfull]
  by_cases h1 : os.helper_error.1 = P.COMM_ERR_EXEC
  · have hst : PtyFork_stage P os = some ("exec() failed: " ++ os.strerror os.helper_error.2) := by
      unfold PtyFork_stage throw_for_errno
      rw [if_pos (by simpa using h1)]
    exact ⟨"exec() failed: ", by simp, by rw [hst]⟩
  by_cases h2 : os.helper_error.1 = P.COMM_ERR_CHDIR
  · have hst : PtyFork_stage P os = some ("chdir() failed: " ++ os.strerror os.helper_error.2) := by
      unfold PtyFork_stage throw_for_errno
      rw [if_neg (by simpa using h1), if_pos (by simpa using h2)]
    exact ⟨"chdir() failed: ", by simp, by rw [hst]⟩
  by_cases h3 : os.helper_error.1 = P.COMM_ERR_SETUID
  · have hst : PtyFork_stage P os = some ("setuid() failed: " ++ os.strerror os.helper_error.2) := by
      unfold PtyFork_stage throw_for_errno
      rw [if_neg (by simpa using h1), if_neg (by simpa using h2), if_pos (by simpa using h3)]
    exact ⟨"setuid() failed: ", by simp, by rw [hst]⟩
  have h4 : os.helper_error.1 = P.COMM_ERR_SETGID := by tauto
  have hst : PtyFork_stage P os = some ("setgid() failed: " ++ os.strerror os.helper_error.2) := by
    unfold PtyFork_stage throw_for_errno
    rw [if_neg (by simpa using h1), if_neg (by simpa using h2), if_neg (by simpa using h3),
      if_pos (by simpa using h4)]
  exact ⟨"setgid() failed: ", by simp, by rw [hst]⟩

/-- C2 (the code at the failing input): a full-size record whose stage is none
of the four known stages leaves `PtyFork` with no session and with no error
raised. -/
theorem PtyFork_unknown_stage_raises_nothing (P : Platform) (os : Syscalls)
    (info : CallbackInfo) (m s r w : Int) (hargs : PtyFork_badArgs info = false)
    (hpty : os.openpty = some (m, s)) (hpipe : os.pipe = some (r, w))
    (hsp : os.spawn_error = 0) (hfull : os.bytes_read = sizeof_helper_error)
    (h1 : os.helper_error.1 ≠ P.COMM_ERR_EXEC) (h2 : os.helper_error.1 ≠ P.COMM_ERR_CHDIR)
    (h3 : os.helper_error.1 ≠ P.COMM_ERR_SETUID) (h4 : os.helper_error.1 ≠ P.COMM_ERR_SETGID) :
    (PtyFork P os info).1 = Outcome.nothing ∧
      ∀ e ∈ (PtyFork P os info).2, e.isThrew = false := by
  rw [PtyFork_full_read P os info m s r w hargs hpty hpipe hsp hfull]
  have hst : PtyFork_stage P os = none := by simp [PtyFork_stage, h1, h2, h3, h4]
  rw [hst]
  refine ⟨rfl, ?_⟩
  intro e he
  rcases List.mem_append.mp he with h | h
  · exact isThrew_upToRead P os info m s r w e h
  · exact isThrew_done e h

theorem PtyFork_unknown_stage_raises_nothing_witness :
    (PtyFork linux { os0 with bytes_read := 8, helper_error := (0, 2) } info0).1
        = Outcome.nothing ∧
      ∀ e ∈ (PtyFork linux { os0 with bytes_read := 8, helper_error := (0, 2) } info0).2,
        e.isThrew = false :=
  PtyFork_unknown_stage_raises_nothing linux
    { os0 with bytes_read := 8, helper_error := (0, 2) } info0 10 11 12 13
    (by decide) rfl rfl rfl (by decide) (by decide) (by decide) (by decide) (by decide)

/-- C3 (counterexample): a read that returns fewer bytes than the record for a
reason other than "channel closed with no data" (a partial record of 4 bytes, a
failed read returning -1) is treated as success as well: a session is returned. -/
theorem PtyFork_other_short_reads_succeed :
    (4 : Int) ≠ 0 ∧ (4 : Int) < sizeof_helper_error ∧ (-1 : Int) ≠ 0 ∧
    (-1 : Int) < sizeof_helper_error
    ∧ (PtyFork linux { os0 with bytes_read := 4 } info0).1
        = Outcome.object [("fd", JsValue.number 10), ("pid", JsValue.number 4242),
            ("pty", JsValue.string "/dev/pts/7")]
    ∧ (PtyFork linux { os0 with bytes_read := -1 } info0).1
        = Outcome.object [("fd", JsValue.number 10), ("pid", JsValue.number 4242),
            ("pty", JsValue.string "/dev/pts/7")] := by
  refine ⟨?_, ?_, ?_, ?_, ?_, ?_⟩ <;> decide

/-- C3 (amended): when the spawn primitive succeeded and the read of the
error-report channel returns anything other than a full-size record (0 bytes
because the channel was closed with no data, and equally a partial record or a
failed read), no error is raised and, provided the master descriptor can be made
non-blocking, `PtyFork` returns the session with fd = master, pid = the spawned
pid and pty = the subordinate path, and starts the exit watcher for that pid. -/
theorem PtyFork_short_read_is_success (P : Platform) (os : Syscalls) (info : CallbackInfo)
    (m s r w : Int) (hargs : PtyFork_badArgs info = false) (hpty : os.openpty = some (m, s))
    (hpipe : os.pipe = some (r, w)) (hsp : os.spawn_error = 0)
    (hnb : pty_nonblock os m ≠ -1) :
    (os.bytes_read = 0 ∨ os.bytes_read ≠ sizeof_helper_error) →
      (PtyFork P os info).1
          = Outcome.object [("fd", JsValue.number m), ("pid", JsValue.number os.spawn_pid),
              ("pty", JsValue.string (os.ptsname m))]
        ∧ (∀ e ∈ (PtyFork P os info).2, e.isThrew = false)
        ∧ Event.uv_thread_create (PtyFork_baton os.spawn_pid) (info.at 10).AsFunction
            ∈ (PtyFork P os info).2 := by
  intro h
  have hshort : os.bytes_read ≠ sizeof_helper_error := by
    rcases h with h | h
    · rw [h]; decide
    · exact h
  rw [PtyFork_short_read_eq P os info m s r w hargs hpty hpipe hsp hshort, if_neg hnb]
  refine ⟨rfl, ?_, by simp⟩
  intro e he
  rcases List.mem_append.mp he with h | h
  · exact isThrew_upToRead P os info m s r w e h
  · simp only [List.mem_singleton] at h
    subst h
    rfl

theorem PtyFork_short_read_is_success_witness :
    (PtyFork linux os0 info0).1
        = Outcome.object [("fd", JsValue.number 10), ("pid", JsValue.number 4242),
            ("pty", JsValue.string (os0.ptsname 10))]
      ∧ (∀ e ∈ (PtyFork linux os0 info0).2, e.isThrew = false)
      ∧ Event.uv_thread_create (PtyFork_baton 4242) 7 ∈ (PtyFork linux os0 info0).2 :=
  PtyFork_short_read_is_success linux os0 info0 10 11 12 13 (by decide) rfl rfl rfl
    (by decide) (Or.inl rfl)

/-! ## Signal mask and descriptors -/

theorem maskAfter_append_sigmask (entry set : sigset_t) (xs ys : List Event) :
    maskAfter entry (xs ++ Event.pthread_sigmask set :: ys) = maskAfter set ys := by
  induction xs generalizing entry with
  | nil => rfl
  | cons x xs ih => cases x <;> simp [maskAfter, ih]

/-- Once the spawn primitive was called, the mask on return is the mask on entry. -/
theorem PtyFork_mask_restored_after_spawn (P : Platform) (os : Syscalls) (info : CallbackInfo)
    (m s r w : Int) (hargs : PtyFork_badArgs info = false) (hpty : os.openpty = some (m, s))
    (hpipe : os.pipe = some (r, w)) :
    maskAfter os.oldmask (PtyFork P os info).2 = os.oldmask := by
  simp only [PtyFork, hargs, hpty, hpipe]
  by_cases hsp : os.spawn_error = 0
  · by_cases hfull : os.bytes_read = sizeof_helper_error
    · cases hst : PtyFork_stage P os <;>
        simp [hsp, hfull, hst, maskAfter, PtyFork_done]
    · by_cases hnb : pty_nonblock os m = -1 <;>
        simp [hsp, hfull, hnb, maskAfter, PtyFork_done]
  · simp [hsp, maskAfter, PtyFork_done]

/-- C8 (the code at the failing input): when terminal allocation or channel
creation fails, `PtyFork` jumps to `done` without restoring the mask: on return
the thread's mask is the full set installed at line 260, not the mask on entry. -/
theorem PtyFork_mask_left_blocked (P : Platform) (os : Syscalls) (info : CallbackInfo)
    (hargs : PtyFork_badArgs info = false)
    (hfail : os.openpty = none ∨ os.pipe = none) :
    maskAfter os.oldmask (PtyFork P os info).2 = os.sigfull ∧
      ∃ msg, (PtyFork P os info).1 = Outcome.thrown msg := by
  cases hpty : os.openpty with
  | none =>
    simp only [PtyFork, hargs, hpty]
    exact ⟨by simp [maskAfter, PtyFork_done], _, rfl⟩
  | some ms =>
    obtain ⟨m, s⟩ := ms
    have hpipe : os.pipe = none := by
      rcases hfail with h | h
      · rw [hpty] at h; cases h
      · exact h
    simp only [PtyFork, hargs, hpty, hpipe]
    exact ⟨by simp [maskAfter, PtyFork_done], _, rfl⟩

theorem PtyFork_mask_left_blocked_witness :
    ([] : sigset_t) ≠ [1, 2, 3] ∧
      (maskAfter ([] : sigset_t) (PtyFork linux { os0 with openpty := none } info0).2 = [1, 2, 3] ∧
        ∃ msg, (PtyFork linux { os0 with openpty := none } info0).1 = Outcome.thrown msg) :=
  ⟨by decide,
    PtyFork_mask_left_blocked linux { os0 with openpty := none } info0 (by decide) (Or.inl rfl)⟩

/-- The channel-creation failure of `PtyFork` leaves the terminal pair open. -/
theorem PtyFork_pipe_failure_leaks (P : Platform) (os : Syscalls) (info : CallbackInfo)
    (m s : Int) (hargs : PtyFork_badArgs info = false) (hpty : os.openpty = some (m, s))
    (hpipe : os.pipe = none) :
    (PtyFork P os info).1 = Outcome.thrown "pipe() failed." ∧
      openAfter [] (PtyFork P os info).2 = [m, s] := by
  simp only [PtyFork, hargs, hpty, hpipe]
  exact ⟨rfl, by simp [openAfter, PtyFork_done]⟩

/-- C9 (the code at the failing input): when `PtyOpen` cannot switch an
endpoint to non-blocking mode it reports the error with the master and slave
descriptors it opened still open. -/
theorem PtyOpen_nonblock_failure_leaks (os : Syscalls) (info : CallbackInfo) (m s : Int)
    (hargs : PtyOpen_badArgs info = false) (hpty : os.openpty = some (m, s))
    (hnb : pty_nonblock os m = -1 ∨ pty_nonblock os s = -1) :
    ((PtyOpen os info).1 = Outcome.thrown "Could not set master fd to nonblocking." ∨
      (PtyOpen os info).1 = Outcome.thrown "Could not set slave fd to nonblocking.") ∧
      openAfter [] (PtyOpen os info).2 = [m, s] := by
  simp only [PtyOpen, hargs, hpty]
  by_cases h1 : pty_nonblock os m = -1
  · simp [h1, openAfter]
  · have h2 : pty_nonblock os s = -1 := by tauto
    simp [h1, h2, openAfter]

theorem PtyOpen_nonblock_failure_leaks_witness :
    ((PtyOpen { os0 with getfl := fun _ => -1 } [JsValue.number 80, JsValue.number 24]).1
          = Outcome.thrown "Could not set master fd to nonblocking." ∨
        (PtyOpen { os0 with getfl := fun _ => -1 } [JsValue.number 80, JsValue.number 24]).1
          = Outcome.thrown "Could not set slave fd to nonblocking.") ∧
      openAfter [] (PtyOpen { os0 with getfl := fun _ => -1 }
        [JsValue.number 80, JsValue.number 24]).2 = [10, 11] :=
  PtyOpen_nonblock_failure_leaks { os0 with getfl := fun _ => -1 }
    [JsValue.number 80, JsValue.number 24] 10 11 (by decide) rfl (Or.inl (by decide))

/-- The `__sun` allocator closes what it opened before it reports a failure. -/
theorem pty_openpty_sun_failure_closes (c : PtmxCalls) (h : (pty_openpty_sun c).1 = -1) :
    openAfter [] (pty_openpty_sun c).2 = [] := by
  unfold pty_openpty_sun at h ⊢
  by_cases h0 : c.open_ptmx = -1
  · simp [h0, openAfter]
  by_cases h1 : c.grantpt = -1
  · simp [h0, h1, openAfter]
  by_cases h2 : c.unlockpt = -1
  · simp [h0, h1, h2, openAfter]
  cases hn : c.slave_name with
  | none => simp [h0, h1, h2, openAfter]
  | some name =>
    by_cases h3 : c.open_slave = -1
    · simp [h0, h1, h2, h3, openAfter]
    · simp [h0, h1, h2, hn, h3] at h

/-! ## The exit watcher -/

theorem decode_notification (P : Platform) (baton : pty_baton) (s : Int) :
    (pty_waitpid_decode P baton s).notification
      = some (if P.WIFEXITED s then P.WEXITSTATUS s else baton.exit_code,
          if P.WIFSIGNALED s then P.WTERMSIG s else baton.signal_code) := by
  unfold WatchRun.notification pty_waitpid_decode pty_after_waitpid
  cases P.WIFEXITED s <;> cases P.WIFSIGNALED s <;> simp

theorem decode_ending (P : Platform) (baton : pty_baton) (s : Int) :
    (pty_waitpid_decode P baton s).ending = WatchEnd.returned := rfl

/-- Every run of the watcher either signals the async handle after decoding one
status, or signals nothing. -/
theorem pty_waitpid_cases (P : Platform) (baton : pty_baton) (ws : List WaitReturn) :
    (∃ s, pty_waitpid P baton ws = pty_waitpid_decode P baton s) ∨
      ((pty_waitpid P baton ws).baton = baton ∧
        (pty_waitpid P baton ws).ending ≠ WatchEnd.returned ∧
        WatchEvent.uv_async_send ∉ (pty_waitpid P baton ws).trace) := by
  induction ws with
  | nil => right; simp [pty_waitpid]
  | cons w rest ih =>
    unfold pty_waitpid
    split
    · split
      · exact ih
      · split
        · exact Or.inl ⟨_, rfl⟩
        · split
          · exact Or.inl ⟨_, rfl⟩
          · right; simp
    · exact Or.inl ⟨_, rfl⟩

/-- C4: for a status the watcher obtained for its child, a normal exit with
code N is notified as (N, 0) and a termination by signal S as (0, S), the two
kinds of status being exclusive as POSIX has them; and in no run of the watcher
are the notified exit code and signal both non-zero. -/
theorem pty_waitpid_decodes_status (P : Platform)
    (hexcl : ∀ s, ¬ (P.WIFEXITED s = true ∧ P.WIFSIGNALED s = true))
    (pid : Int) (w : WaitReturn) (hret : w.ret = pid) :
    (∀ N, P.WIFEXITED w.stat_loc = true → P.WEXITSTATUS w.stat_loc = N →
        (pty_waitpid P (PtyFork_baton pid) [w]).notification = some (N, 0)) ∧
    (∀ S, P.WIFSIGNALED w.stat_loc = true → P.WTERMSIG w.stat_loc = S →
        (pty_waitpid P (PtyFork_baton pid) [w]).notification = some (0, S)) ∧
    (∀ (ws : List WaitReturn) (e sg : Int),
        (pty_waitpid P (PtyFork_baton pid) ws).notification = some (e, sg) → e = 0 ∨ sg = 0) := by
  have hrun : pty_waitpid P (PtyFork_baton pid) [w]
      = pty_waitpid_decode P (PtyFork_baton pid) w.stat_loc := by
    simp [pty_waitpid, PtyFork_baton, hret]
  refine ⟨?_, ?_, ?_⟩
  · intro N hE hN
    have hS : P.WIFSIGNALED w.stat_loc = false := by
      cases h : P.WIFSIGNALED w.stat_loc
      · rfl
      · exact absurd ⟨hE, h⟩ (hexcl _)
    rw [hrun, decode_notification, hE, hS, hN]
    rfl
  · intro S hS hN
    have hE : P.WIFEXITED w.stat_loc = false := by
      cases h : P.WIFEXITED w.stat_loc
      · rfl
      · exact absurd ⟨h, hS⟩ (hexcl _)
    rw [hrun, decode_notification, hE, hS, hN]
    rfl
  · intro ws e sg h
    rcases pty_waitpid_cases P (PtyFork_baton pid) ws with ⟨s, hs⟩ | ⟨_, _, hno⟩
    · rw [hs, decode_notification] at h
      simp only [Option.some.injEq, Prod.mk.injEq] at h
      obtain ⟨he, hsg⟩ := h
      cases hE : P.WIFEXITED s
      · left
        rw [← he, hE]
        rfl
      · right
        have hS : P.WIFSIGNALED s = false := by
          cases h : P.WIFSIGNALED s
          · rfl
          · exact absurd ⟨hE, h⟩ (hexcl _)
        rw [← hsg, hS]
        rfl
    · simp [WatchRun.notification, hno] at h

theorem linux_status_exclusive :
    ∀ s, ¬ (linux.WIFEXITED s = true ∧ linux.WIFSIGNALED s = true) := by
  intro s
  simp only [linux, beq_iff_eq, decide_eq_true_eq]
  omega

theorem pty_waitpid_decodes_status_witness :
    (∀ N, linux.WIFEXITED 768 = true → linux.WEXITSTATUS 768 = N →
        (pty_waitpid linux (PtyFork_baton 4242) [⟨4242, 0, 768⟩]).notification = some (N, 0)) ∧
    (∀ S, linux.WIFSIGNALED 768 = true → linux.WTERMSIG 768 = S →
        (pty_waitpid linux (PtyFork_baton 4242) [⟨4242, 0, 768⟩]).notification = some (0, S)) ∧
    (∀ (ws : List WaitReturn) (e sg : Int),
        (pty_waitpid linux (PtyFork_baton 4242) ws).notification = some (e, sg) →
          e = 0 ∨ sg = 0) :=
  pty_waitpid_decodes_status linux linux_status_exclusive 4242 ⟨4242, 0, 768⟩ rfl

/-- C5 (the code at the failing input): after a wait that failed with ECHILD the
watcher still decodes the local status word, which the failed wait did not
write: a word holding 256 is notified as exit code 1, a word holding 9 as
signal 9. -/
theorem pty_waitpid_echild_decodes_unwritten_status :
    (pty_waitpid linux (PtyFork_baton 4242) [⟨-1, linux.ECHILD, 256⟩]).notification
        = some (1, 0) ∧
      (pty_waitpid linux (PtyFork_baton 4242) [⟨-1, linux.ECHILD, 9⟩]).notification
        = some (0, 9) ∧
      (pty_waitpid linux (PtyFork_baton 4242) [⟨-1, linux.ECHILD, 0⟩]).notification
        = some (0, 0) := by
  refine ⟨?_, ?_, ?_⟩ <;> decide

/-- C6: interrupted waits before a wait result change nothing: the run is the
run on that result alone (same exit code, same signal, same events), and a run
that has seen only interruptions has written no exit state and sent nothing. -/
theorem pty_waitpid_retries_interruptions (P : Platform) (baton : pty_baton)
    (ints : List WaitReturn) (d : WaitReturn) (hpid : baton.pid ≠ -1)
    (hints : ∀ w ∈ ints, w.ret = -1 ∧ w.errno = P.EINTR) :
    pty_waitpid P baton (ints ++ [d]) = pty_waitpid P baton [d] ∧
      (pty_waitpid P baton (ints ++ [d])).notification = (pty_waitpid P baton [d]).notification ∧
      pty_waitpid P baton ints = { baton := baton, trace := [], ending := WatchEnd.blocked } := by
  have hstep : ∀ (w : WaitReturn) (rest : List WaitReturn), w.ret = -1 ∧ w.errno = P.EINTR →
      pty_waitpid P baton (w :: rest) = pty_waitpid P baton rest := by
    intro w rest hw
    have h1 : (-1 : Int) ≠ baton.pid := fun h => hpid h.symm
    simp [pty_waitpid, h1, hw.1, hw.2]
  have hall : ∀ tail, pty_waitpid P baton (ints ++ tail) = pty_waitpid P baton tail := by
    intro tail
    induction ints with
    | nil => rfl
    | cons w rest ih =>
      rw [List.cons_append, hstep w _ (hints w (List.mem_cons_self _ _))]
      exact ih (fun x hx => hints x (List.mem_cons_of_mem _ hx))
  refine ⟨hall [d], by rw [hall [d]], ?_⟩
  have := hall []
  rw [List.append_nil] at this
  rw [this]
  rfl

theorem pty_waitpid_retries_interruptions_witness :
    pty_waitpid linux (PtyFork_baton 4242)
        ([⟨-1, 4, 77⟩, ⟨-1, 4, 0⟩, ⟨-1, 4, 256⟩] ++ [⟨4242, 0, 768⟩])
        = pty_waitpid linux (PtyFork_baton 4242) [⟨4242, 0, 768⟩] ∧
      (pty_waitpid linux (PtyFork_baton 4242)
        ([⟨-1, 4, 77⟩, ⟨-1, 4, 0⟩, ⟨-1, 4, 256⟩] ++ [⟨4242, 0, 768⟩])).notification
        = (pty_waitpid linux (PtyFork_baton 4242) [⟨4242, 0, 768⟩]).notification ∧
      pty_waitpid linux (PtyFork_baton 4242) [⟨-1, 4, 77⟩, ⟨-1, 4, 0⟩, ⟨-1, 4, 256⟩]
        = { baton := PtyFork_baton 4242, trace := [], ending := WatchEnd.blocked } :=
  pty_waitpid_retries_interruptions linux (PtyFork_baton 4242)
    [⟨-1, 4, 77⟩, ⟨-1, 4, 0⟩, ⟨-1, 4, 256⟩] ⟨4242, 0, 768⟩ (by decide) (by decide)

/-! ## One notification per session -/

theorem decode_trace_shape (P : Platform) (baton : pty_baton) (s : Int) :
    (pty_waitpid_decode P baton s).trace.count WatchEvent.uv_async_send = 1 ∧
      (pty_waitpid_decode P baton s).trace.getLast? = some WatchEvent.uv_async_send ∧
      ((pty_waitpid_decode P baton s).trace.filter WatchEvent.isSetExit).length ≤ 1 ∧
      ((pty_waitpid_decode P baton s).trace.filter WatchEvent.isSetSignal).length ≤ 1 := by
  unfold pty_waitpid_decode
  cases P.WIFEXITED s <;> cases P.WIFSIGNALED s <;>
    simp [List.filter, WatchEvent.isSetExit, WatchEvent.isSetSignal]

theorem waitFiresN_inactive (w : WaitRegistration) (h : w.active = false) (n : Nat) :
    waitFiresN w n = [] := by
  induction n with
  | zero => rfl
  | succ n ih => simp [waitFiresN, waitFires, h, ih]

/-- A wait registered without the one-shot flag runs its callback at every
observation. -/
theorem waitFiresN_default (id hProcess n : Nat) :
    (waitFiresN (repeatingWait id hProcess) n).length = n := by
  induction n with
  | zero => rfl
  | succ n ih =>
    have hon : (WT_EXECUTEDEFAULT &&& WT_EXECUTEONLYONCE == 0) = true := by decide
    have hsame : (waitFires (repeatingWait id hProcess)).1 = repeatingWait id hProcess := by
      simp [waitFires, repeatingWait, hon]
    have hev : (waitFires (repeatingWait id hProcess)).2 = [WinEvent.uv_async_send id] := by
      simp [waitFires, repeatingWait, OnProcessExitWinEvent]
    rw [waitFiresN, hsame, hev, List.length_append, ih]
    simp
    omega

/-- C7: a run of the POSIX watcher that returns has signalled the async handle
exactly once, as its last event (after the writes of the exit state), and has
written each exit-state field at most once; a run that did not return (aborted,
or still blocked in the wait) has signalled nothing; a run whose wait returns
the watched pid does return.  On Windows the wait `PtyConnect` registers is
one-shot: however often the process handle is seen signalled, the callback runs,
and signals the async handle of that session, at most once (exactly once as
soon as the handle is seen signalled). -/
theorem exit_notification_once (P : Platform) (baton : pty_baton) (ws : List WaitReturn) :
    ((pty_waitpid P baton ws).ending = WatchEnd.returned →
        (pty_waitpid P baton ws).trace.count WatchEvent.uv_async_send = 1 ∧
        (pty_waitpid P baton ws).trace.getLast? = some WatchEvent.uv_async_send ∧
        ((pty_waitpid P baton ws).trace.filter WatchEvent.isSetExit).length ≤ 1 ∧
        ((pty_waitpid P baton ws).trace.filter WatchEvent.isSetSignal).length ≤ 1) ∧
    ((pty_waitpid P baton ws).ending ≠ WatchEnd.returned →
        (pty_waitpid P baton ws).trace.count WatchEvent.uv_async_send = 0 ∧
        (pty_waitpid P baton ws).baton = baton) ∧
    (∀ (w : WaitReturn) (rest : List WaitReturn), w.ret = baton.pid →
        (pty_waitpid P baton (w :: rest)).ending = WatchEnd.returned) ∧
    (∀ id hProcess : Nat, (PtyConnect_wait id hProcess).dwFlags = WT_EXECUTEONLYONCE ∧
      ∀ n : Nat,
        (waitFiresN (PtyConnect_wait id hProcess) n).count (WinEvent.uv_async_send id) ≤ 1 ∧
        (waitFiresN (PtyConnect_wait id hProcess) n).length ≤ 1 ∧
        (waitFiresN (PtyConnect_wait id hProcess) (n + 1)) = [WinEvent.uv_async_send id]) := by
  refine ⟨?_, ?_, ?_, ?_⟩
  · intro hend
    rcases pty_waitpid_cases P baton ws with ⟨s, hs⟩ | ⟨_, hne, _⟩
    · rw [hs]
      exact decode_trace_shape P baton s
    · exact absurd hend hne
  · intro hend
    rcases pty_waitpid_cases P baton ws with ⟨s, hs⟩ | ⟨hb, _, hno⟩
    · rw [hs] at hend
      exact absurd (decode_ending P baton s) hend
    · exact ⟨List.count_eq_zero.mpr hno, hb⟩
  · intro w rest hret
    simp [pty_waitpid, hret, decode_ending]
  · intro id hProcess
    refine ⟨rfl, ?_⟩
    have hone : ∀ n, waitFiresN (PtyConnect_wait id hProcess) (n + 1)
        = [WinEvent.uv_async_send id] := by
      intro n
      have hnext : ((waitFires (PtyConnect_wait id hProcess)).1).active = false := by
        simp [waitFires, PtyConnect_wait, WT_EXECUTEONLYONCE]
      have hev : (waitFires (PtyConnect_wait id hProcess)).2 = [WinEvent.uv_async_send id] := by
        simp [waitFires, PtyConnect_wait, OnProcessExitWinEvent]
      rw [waitFiresN, waitFiresN_inactive _ hnext, hev]
      rfl
    intro n
    refine ⟨?_, ?_, hone n⟩
    · cases n with
      | zero => simp [waitFiresN]
      | succ k => rw [hone k]; simp
    · cases n with
      | zero => simp [waitFiresN]
      | succ k => rw [hone k]; simp

/-! ## Argument validation -/

theorem IsString_iff (v : JsValue) : v.IsString = true ↔ v.kind = JsKind.string := by
  cases v <;> simp [JsValue.IsString, JsValue.kind]

theorem IsArray_iff (v : JsValue) : v.IsArray = true ↔ v.kind = JsKind.array := by
  cases v <;> simp [JsValue.IsArray, JsValue.kind]

theorem IsNumber_iff (v : JsValue) : v.IsNumber = true ↔ v.kind = JsKind.number := by
  cases v <;> simp [JsValue.IsNumber, JsValue.kind]

theorem IsBoolean_iff (v : JsValue) : v.IsBoolean = true ↔ v.kind = JsKind.boolean := by
  cases v <;> simp [JsValue.IsBoolean, JsValue.kind]

theorem IsFunction_iff (v : JsValue) : v.IsFunction = true ↔ v.kind = JsKind.function := by
  cases v <;> simp [JsValue.IsFunction, JsValue.kind]

theorem PtyFork_badArgs_iff (info : CallbackInfo) :
    PtyFork_badArgs info = false ↔ info.map JsValue.kind = PtyFork_kinds := by
  rcases info with _ | ⟨a0, _ | ⟨a1, _ | ⟨a2, _ | ⟨a3, _ | ⟨a4, _ | ⟨a5, _ | ⟨a6, _ | ⟨a7,
    _ | ⟨a8, _ | ⟨a9, _ | ⟨a10, _ | ⟨a11, _ | ⟨a12, rest⟩⟩⟩⟩⟩⟩⟩⟩⟩⟩⟩⟩⟩ <;>
    simp [PtyFork_badArgs, PtyFork_kinds, CallbackInfo.at, IsString_iff, IsArray_iff,
      IsNumber_iff, IsBoolean_iff, IsFunction_iff]
  all_goals tauto

theorem PtyOpen_badArgs_iff (info : CallbackInfo) :
    PtyOpen_badArgs info = false ↔ info.map JsValue.kind = [JsKind.number, JsKind.number] := by
  rcases info with _ | ⟨a0, _ | ⟨a1, _ | ⟨a2, rest⟩⟩⟩ <;>
    simp [PtyOpen_badArgs, CallbackInfo.at, IsNumber_iff]

theorem PtyResize_badArgs_iff (info : CallbackInfo) :
    PtyResize_badArgs info = false
      ↔ info.map JsValue.kind = [JsKind.number, JsKind.number, JsKind.number] := by
  rcases info with _ | ⟨a0, _ | ⟨a1, _ | ⟨a2, _ | ⟨a3, rest⟩⟩⟩⟩ <;>
    simp [PtyResize_badArgs, CallbackInfo.at, IsNumber_iff]
  all_goals tauto

theorem append_ne_of_head (p s u : String) (hp : p.data ≠ [])
    (h : p.data.head? ≠ u.data.head?) : p ++ s ≠ u := by
  intro heq
  apply h
  rw [← heq, String.data_append]
  cases hpd : p.data with
  | nil => exact absurd hpd hp
  | cons c cs => simp

theorem throw_for_errno_ne_usage (os : Syscalls) (message : String) (e : Int)
    (hp : message.data ≠ []) (h : message.data.head? ≠ some 'U') :
    throw_for_errno os message e ≠ PtyFork_usage := by
  unfold throw_for_errno
  apply append_ne_of_head _ _ _ hp
  have : PtyFork_usage.data.head? = some 'U' := by decide
  rw [this]
  exact h

theorem PtyFork_stage_ne_usage (P : Platform) (os : Syscalls) (m : String)
    (h : PtyFork_stage P os = some m) : m ≠ PtyFork_usage := by
  unfold PtyFork_stage at h
  split at h
  · cases h; exact throw_for_errno_ne_usage os _ _ (by decide) (by decide)
  · split at h
    · cases h; exact throw_for_errno_ne_usage os _ _ (by decide) (by decide)
    · split at h
      · cases h; exact throw_for_errno_ne_usage os _ _ (by decide) (by decide)
      · split at h
        · cases h; exact throw_for_errno_ne_usage os _ _ (by decide) (by decide)
        · cases h

/-- With well-kinded arguments `PtyFork` never ends in its usage error. -/
theorem PtyFork_valid_no_usage (P : Platform) (os : Syscalls) (info : CallbackInfo)
    (hargs : PtyFork_badArgs info = false) :
    (PtyFork P os info).1 ≠ Outcome.thrown PtyFork_usage := by
  simp only [PtyFork, hargs]
  cases hpty : os.openpty with
  | none =>
    simp only [Bool.false_eq_true, if_false]
    decide
  | some ms =>
    obtain ⟨m, s⟩ := ms
    cases hpipe : os.pipe with
    | none =>
      simp only [Bool.false_eq_true, if_false]
      decide
    | some rw =>
      obtain ⟨r, w⟩ := rw
      simp only [Bool.false_eq_true, if_false]
      by_cases hsp : os.spawn_error = 0
      · by_cases hfull : os.bytes_read = sizeof_helper_error
        · cases hst : PtyFork_stage P os with
          | none => simp [hsp, hfull, hst]
          | some msg =>
            simp only [hsp, hfull, hst, bne_self_eq_false, Bool.false_eq_true, if_false,
              beq_self_eq_true, if_true]
            intro h
            exact PtyFork_stage_ne_usage P os msg hst (Outcome.thrown.inj h)
        · by_cases hnb : pty_nonblock os m = -1
          · simp only [hsp, hfull, hnb, bne_self_eq_false, Bool.false_eq_true, if_false,
              beq_iff_eq, beq_self_eq_true, if_true]
            decide
          · simp [hsp, hfull, hnb]
      · have hne : (os.spawn_error != 0) = true := by simpa using hsp
        simp only [hne, if_true]
        intro h
        exact throw_for_errno_ne_usage os _ _ (by decide) (by decide) (Outcome.thrown.inj h)

/-- C10: `PtyFork` raises its usage error if and only if the call does not have
exactly the 12 arguments (string, array, array, string, number, number, number,
number, boolean, boolean, function, string) in that order, and when it does the
throw is the only event of the call: no buffer was allocated, no signal blocked,
no descriptor opened.  Likewise `PtyOpen` for (number, number) and `PtyResize`
for (number, number, number). -/
theorem usage_error_iff_wrong_arguments (P : Platform) (os : Syscalls) (info : CallbackInfo) :
    (((PtyFork P os info).1 = Outcome.thrown PtyFork_usage
        ↔ info.map JsValue.kind ≠ PtyFork_kinds) ∧
      ((PtyFork P os info).1 = Outcome.thrown PtyFork_usage →
        (PtyFork P os info).2 = [Event.threw PtyFork_usage] ∧
        ∀ e ∈ (PtyFork P os info).2, e.touchesResource = false)) ∧
    (((PtyOpen os info).1 = Outcome.thrown PtyOpen_usage
        ↔ info.map JsValue.kind ≠ [JsKind.number, JsKind.number]) ∧
      ((PtyOpen os info).1 = Outcome.thrown PtyOpen_usage →
        (PtyOpen os info).2 = [Event.threw PtyOpen_usage])) ∧
    (((PtyResize P os info).1 = Outcome.thrown PtyResize_usage
        ↔ info.map JsValue.kind ≠ [JsKind.number, JsKind.number, JsKind.number]) ∧
      ((PtyResize P os info).1 = Outcome.thrown PtyResize_usage →
        (PtyResize P os info).2 = [Event.threw PtyResize_usage])) := by
  refine ⟨?_, ?_, ?_⟩
  · cases hargs : PtyFork_badArgs info with
    | true =>
      have hk : info.map JsValue.kind ≠ PtyFork_kinds := by
        intro h
        rw [(PtyFork_badArgs_iff info).mpr h] at hargs
        cases hargs
      have hrun : PtyFork P os info
          = (Outcome.thrown PtyFork_usage, [Event.threw PtyFork_usage]) := by
        simp [PtyFork, hargs]
      rw [hrun]
      refine ⟨⟨fun _ => hk, fun _ => rfl⟩, fun _ => ⟨rfl, ?_⟩⟩
      intro e he
      simp only [List.mem_singleton] at he
      subst he
      rfl
    | false =>
      have hk : info.map JsValue.kind = PtyFork_kinds := (PtyFork_badArgs_iff info).mp hargs
      have hno := PtyFork_valid_no_usage P os info hargs
      exact ⟨⟨fun h => absurd h hno, fun h => absurd hk h⟩, fun h => absurd h hno⟩
  · cases hargs : PtyOpen_badArgs info with
    | true =>
      have hk : info.map JsValue.kind ≠ [JsKind.number, JsKind.number] := by
        intro h
        rw [(PtyOpen_badArgs_iff info).mpr h] at hargs
        cases hargs
      have hrun : PtyOpen os info
          = (Outcome.thrown PtyOpen_usage, [Event.threw PtyOpen_usage]) := by
        simp [PtyOpen, hargs]
      rw [hrun]
      exact ⟨⟨fun _ => hk, fun _ => rfl⟩, fun _ => rfl⟩
    | false =>
      have hk := (PtyOpen_badArgs_iff info).mp hargs
      have hno : (PtyOpen os info).1 ≠ Outcome.thrown PtyOpen_usage := by
        simp only [PtyOpen, hargs]
        cases hpty : os.openpty with
        | none =>
          simp only [Bool.false_eq_true, if_false]
          decide
        | some ms =>
          obtain ⟨m, s⟩ := ms
          simp only [Bool.false_eq_true, if_false]
          by_cases h1 : pty_nonblock os m = -1
          · simp only [h1, beq_self_eq_true, if_true]
            decide
          · by_cases h2 : pty_nonblock os s = -1
            · simp only [h1, h2, beq_iff_eq, beq_self_eq_true, if_true, if_false]
              decide
            · simp [h1, h2]
      exact ⟨⟨fun h => absurd h hno, fun h => absurd hk h⟩, fun h => absurd h hno⟩
  · cases hargs : PtyResize_badArgs info with
    | true =>
      have hk : info.map JsValue.kind ≠ [JsKind.number, JsKind.number, JsKind.number] := by
        intro h
        rw [(PtyResize_badArgs_iff info).mpr h] at hargs
        cases hargs
      have hrun : PtyResize P os info
          = (Outcome.thrown PtyResize_usage, [Event.threw PtyResize_usage]) := by
        simp [PtyResize, hargs]
      rw [hrun]
      exact ⟨⟨fun _ => hk, fun _ => rfl⟩, fun _ => rfl⟩
    | false =>
      have hk := (PtyResize_badArgs_iff info).mp hargs
      have hno : (PtyResize P os info).1 ≠ Outcome.thrown PtyResize_usage := by
        simp only [PtyResize, hargs, Bool.false_eq_true, if_false]
        split
        · split_ifs <;> decide
        · decide
      exact ⟨⟨fun h => absurd h hno, fun h => absurd hk h⟩, fun h => absurd h hno⟩

/-! ## The Windows session registry -/

namespace Win

theorem update_pty_baton_ids (f : pty_baton → pty_baton) (hf : ∀ h, (f h).id = h.id)
    (l : List pty_baton) (id : Int) :
    (update_pty_baton f l id).map (fun h => h.id) = l.map (fun h => h.id) := by
  induction l with
  | nil => rfl
  | cons h rest ih =>
    unfold update_pty_baton
    split
    · simp [hf]
    · simp [ih]

theorem update_pty_baton_length (f : pty_baton → pty_baton) (l : List pty_baton) (id : Int) :
    (update_pty_baton f l id).length = l.length := by
  induction l with
  | nil => rfl
  | cons h rest ih =>
    unfold update_pty_baton
    split <;> simp [ih]

/-- What a call does to the registry: nothing to the ids and the counter, or
(a create that succeeded) one new entry at the end whose id is the incremented
counter. -/
theorem step_registry (st : State) (c : Call) :
    ((step st c).1.ids = st.ids ∧ (step st c).1.ptyHandles.length = st.ptyHandles.length ∧
        (step st c).1.ptyCounter = st.ptyCounter) ∨
      ((step st c).1.ids = st.ids ++ [toLONG (st.ptyCounter + 1)] ∧
        (step st c).1.ptyHandles.length = st.ptyHandles.length + 1 ∧
        (step st c).1.ptyCounter = toLONG (st.ptyCounter + 1)) := by
  cases c with
  | startProcess os info =>
    simp only [step, PtyStartProcess]
    repeat' split
    all_goals first
      | exact Or.inl ⟨rfl, rfl, rfl⟩
      | exact Or.inr ⟨by simp [State.ids], by simp, rfl⟩
  | connect os info =>
    left
    simp only [step, PtyConnect]
    repeat' split
    all_goals first
      | exact ⟨rfl, rfl, rfl⟩
      | exact ⟨update_pty_baton_ids (PtyConnect_update _ _ _) (fun _ => rfl) _ _,
          update_pty_baton_length _ _ _, rfl⟩
  | resize os info =>
    left
    simp only [step, PtyResize]
    repeat' split
    all_goals exact ⟨rfl, rfl, rfl⟩
  | kill os info =>
    left
    simp only [step, PtyKill]
    repeat' split
    all_goals exact ⟨rfl, rfl, rfl⟩

theorem toLONG_succ (n : Int) : toLONG (toLONG n + 1) = toLONG (n + 1) := by
  unfold toLONG
  omega

theorem Inv_init : Inv State.init := by
  constructor
  · decide
  · rfl

theorem Inv_step (st : State) (c : Call) (h : Inv st) : Inv (step st c).1 := by
  obtain ⟨hc, hids⟩ := h
  rcases step_registry st c with ⟨h1, h2, h3⟩ | ⟨h1, h2, h3⟩
  · exact ⟨by rw [h3, h2, hc], by rw [h1, h2, hids]⟩
  · constructor
    · rw [h3, h2, hc, toLONG_succ]
      push_cast
      rfl
    · rw [h1, h2, hids, hc, toLONG_succ, List.range_succ, List.map_append]
      rfl

theorem Inv_run (calls : List Call) : ∀ st, Inv st → Inv (run st calls) := by
  induction calls with
  | nil => intro st h; exact h
  | cons c rest ih => intro st h; exact ih _ (Inv_step st c h)

theorem toLONG_inj_below_wrap (a b : Nat) (ha : a < 4294967296) (hb : b < 4294967296)
    (h : toLONG ((a : Int) + 1) = toLONG ((b : Int) + 1)) : a = b := by
  unfold toLONG at h
  omega

theorem Inv_nodup (st : State) (h : Inv st) (hbound : st.ptyHandles.length ≤ 4294967296) :
    st.ids.Nodup := by
  rw [h.2]
  apply List.Nodup.map_on _ (List.nodup_range _)
  intro a ha b hb hab
  rw [List.mem_range] at ha hb
  exact toLONG_inj_below_wrap a b (by omega) (by omega) hab

theorem get_pty_baton_of_nodup (l : List pty_baton) (hnd : (l.map (fun h => h.id)).Nodup)
    (k : Nat) (b : pty_baton) (hk : l[k]? = some b) : get_pty_baton l b.id = some b := by
  induction l generalizing k with
  | nil => simp at hk
  | cons h rest ih =>
    simp only [List.map_cons, List.nodup_cons] at hnd
    cases k with
    | zero =>
      simp only [List.getElem?_cons_zero, Option.some.injEq] at hk
      subst hk
      simp [get_pty_baton]
    | succ k =>
      simp only [List.getElem?_cons_succ] at hk
      have hmem : b.id ∈ rest.map (fun h => h.id) :=
        List.mem_map.mpr ⟨b, List.getElem?_mem hk, rfl⟩
      have hne : h.id ≠ b.id := fun e => hnd.1 (e ▸ hmem)
      simp only [get_pty_baton, beq_iff_eq, hne, if_false]
      exact ih hnd.2 k hk

theorem ids_getElem (st : State) (h : Inv st) (k : Nat) (b : pty_baton)
    (hk : st.ptyHandles[k]? = some b) : b.id = toLONG ((k : Int) + 1) := by
  have hlt : k < st.ptyHandles.length := by
    rcases Nat.lt_or_ge k st.ptyHandles.length with h1 | h1
    · exact h1
    · rw [List.getElem?_eq_none h1] at hk; cases hk
  have h1 : st.ids[k]? = some b.id := by
    simp [State.ids, hk]
  rw [h.2, List.getElem?_map, List.getElem?_range hlt] at h1
  exact (Option.some.inj h1).symm

/-- The four ways `PtyStartProcess` ends. -/
theorem PtyStartProcess_success (st : State) (os : Calls) (info : CallbackInfo)
    (hb : PtyStartProcess_badArgs info = false)
    (hf : ((PtyStartProcess_shellpath os info).isEmpty ||
      !os.file_exists (PtyStartProcess_shellpath os info)) = false)
    (hs : SUCCEEDED (PtyStartProcess_create os info).hr = true) :
    PtyStartProcess st os info =
      ({ ptyHandles := st.ptyHandles ++
            [{ id := toLONG (st.ptyCounter + 1), hIn := (PtyStartProcess_create os info).hIn,
               hOut := (PtyStartProcess_create os info).hOut,
               hpc := (PtyStartProcess_create os info).hpc, hShell := os.uninit,
               hWait := none, cb := none }],
          ptyCounter := toLONG (st.ptyCounter + 1) },
        Outcome.object [("pty", JsValue.number (toLONG (st.ptyCounter + 1))),
          ("fd", JsValue.number (-1)),
          ("conin", JsValue.string (PtyStartProcess_create os info).inName),
          ("conout", JsValue.string (PtyStartProcess_create os info).outName)],
        (PtyStartProcess_create os info).trace) := by
  simp only [PtyStartProcess, hb, hf, hs, if_true, if_false, Bool.false_eq_true]

theorem PtyStartProcess_failure (st : State) (os : Calls) (info : CallbackInfo)
    (hb : PtyStartProcess_badArgs info = false)
    (hf : ((PtyStartProcess_shellpath os info).isEmpty ||
      !os.file_exists (PtyStartProcess_shellpath os info)) = false)
    (hs : SUCCEEDED (PtyStartProcess_create os info).hr = false) :
    PtyStartProcess st os info =
      (st, Outcome.thrown "Cannot launch conpty",
        (PtyStartProcess_create os info).trace ++ [Event.threw "Cannot launch conpty"]) := by
  simp only [PtyStartProcess, hb, hf, hs, if_true, if_false, Bool.false_eq_true]

theorem PtyStartProcess_no_file (st : State) (os : Calls) (info : CallbackInfo)
    (hb : PtyStartProcess_badArgs info = false)
    (hf : ((PtyStartProcess_shellpath os info).isEmpty ||
      !os.file_exists (PtyStartProcess_shellpath os info)) = true) :
    PtyStartProcess st os info =
      (st, Outcome.thrown ("File not found: " ++ PtyStartProcess_shellpath os info),
        [Event.threw ("File not found: " ++ PtyStartProcess_shellpath os info)]) := by
  simp only [PtyStartProcess, hb, hf, if_true, if_false, Bool.false_eq_true]

theorem PtyStartProcess_bad (st : State) (os : Calls) (info : CallbackInfo)
    (hb : PtyStartProcess_badArgs info = true) :
    PtyStartProcess st os info =
      (st, Outcome.thrown PtyStartProcess_usage, [Event.threw PtyStartProcess_usage]) := by
  simp only [PtyStartProcess, hb, if_true]

/-- A create that returns an object appends one entry whose id is the `pty`
field of the object. -/
theorem PtyStartProcess_new_entry (st : State) (os : Calls) (info : CallbackInfo)
    (fields : List (String × JsValue))
    (h : (PtyStartProcess st os info).2.1 = Outcome.object fields) :
    ∃ b : pty_baton, (PtyStartProcess st os info).1.ptyHandles = st.ptyHandles ++ [b] ∧
      fields.lookup "pty" = some (JsValue.number b.id) ∧
      b.id = toLONG (st.ptyCounter + 1) := by
  cases hb : PtyStartProcess_badArgs info with
  | true => rw [PtyStartProcess_bad st os info hb] at h; cases h
  | false =>
    cases hf : ((PtyStartProcess_shellpath os info).isEmpty ||
        !os.file_exists (PtyStartProcess_shellpath os info)) with
    | true => rw [PtyStartProcess_no_file st os info hb hf] at h; cases h
    | false =>
      cases hs : SUCCEEDED (PtyStartProcess_create os info).hr with
      | false => rw [PtyStartProcess_failure st os info hb hf hs] at h; cases h
      | true =>
        rw [PtyStartProcess_success st os info hb hf hs] at h ⊢
        simp only [Outcome.object.injEq] at h
        subst h
        exact ⟨_, rfl, by simp [List.lookup], rfl⟩

theorem sample_create_succeeds (st : State) :
    (step st (Call.startProcess winCalls0 winInfo0)).1.ptyHandles.length
      = st.ptyHandles.length + 1 := by
  rw [step, PtyStartProcess_success st winCalls0 winInfo0 (by decide) (by decide) (by decide)]
  simp

theorem sample_creates_length (n : Nat) : ∀ st : State,
    (run st (List.replicate n (Call.startProcess winCalls0 winInfo0))).ptyHandles.length
      = st.ptyHandles.length + n := by
  induction n with
  | zero => intro st; rfl
  | succ n ih =>
    intro st
    rw [List.replicate_succ, run, ih, sample_create_succeeds]
    omega

end Win

/-- C11 (counterexample): after 4294967297 successful create calls the 32-bit
counter has wrapped once and the registry holds the id 1 twice: the ids are not
pairwise distinct. -/
theorem registry_ids_repeat_after_wrap :
    ¬ (Win.run Win.State.init
        (List.replicate 4294967297 (Win.Call.startProcess winCalls0 winInfo0))).ids.Nodup := by
  intro hnd
  have hinv := Win.Inv_run (List.replicate 4294967297 (Win.Call.startProcess winCalls0 winInfo0))
    Win.State.init Win.Inv_init
  have hlen := Win.sample_creates_length 4294967297 Win.State.init
  rw [hinv.2, hlen] at hnd
  have hinj := List.inj_on_of_nodup_map hnd
  have h0 : (0 : Nat) ∈ List.range (Win.State.init.ptyHandles.length + 4294967297) :=
    List.mem_range.mpr (by simp [Win.State.init])
  have h1 : (4294967296 : Nat) ∈ List.range (Win.State.init.ptyHandles.length + 4294967297) :=
    List.mem_range.mpr (by simp [Win.State.init])
  have heq : Win.toLONG (((0 : Nat) : Int) + 1) = Win.toLONG (((4294967296 : Nat) : Int) + 1) := by
    decide
  have := hinj h0 h1 heq
  omega

/-- C11 (amended): in every state reached from the initial one by any sequence
of create, connect, resize and kill calls in which at most 2^32 sessions were
created, the ids held in the registry are pairwise distinct, the k-th session
created holds the id k read as a 32-bit value, and a lookup by the id of a
session yields that session; a create call that returns an id appended the
session holding that id. -/
theorem registry_ids_distinct_below_wrap (calls : List Win.Call)
    (hbound : (Win.run Win.State.init calls).ptyHandles.length ≤ 4294967296) :
    (Win.run Win.State.init calls).ids.Nodup ∧
    (∀ (k : Nat) (b : Win.pty_baton), (Win.run Win.State.init calls).ptyHandles[k]? = some b →
      b.id = Win.toLONG ((k : Int) + 1) ∧
      Win.get_pty_baton (Win.run Win.State.init calls).ptyHandles b.id = some b) ∧
    (∀ (os : Win.Calls) (info : CallbackInfo) (fields : List (String × JsValue)),
      (Win.PtyStartProcess (Win.run Win.State.init calls) os info).2.1 = Outcome.object fields →
      ∃ b : Win.pty_baton,
        (Win.PtyStartProcess (Win.run Win.State.init calls) os info).1.ptyHandles
          = (Win.run Win.State.init calls).ptyHandles ++ [b] ∧
        fields.lookup "pty" = some (JsValue.number b.id)) := by
  have hinv := Win.Inv_run calls Win.State.init Win.Inv_init
  have hnd := Win.Inv_nodup _ hinv hbound
  refine ⟨hnd, ?_, ?_⟩
  · intro k b hk
    exact ⟨Win.ids_getElem _ hinv k b hk, Win.get_pty_baton_of_nodup _ hnd k b hk⟩
  · intro os info fields h
    obtain ⟨b, h1, h2, _⟩ := Win.PtyStartProcess_new_entry _ os info fields h
    exact ⟨b, h1, h2⟩

theorem registry_ids_distinct_below_wrap_witness :
    (Win.run Win.State.init [Win.Call.startProcess winCalls0 winInfo0,
        Win.Call.connect winCalls0 winConnect1, Win.Call.startProcess winCalls0 winInfo0,
        Win.Call.kill winCalls0 [JsValue.number 1]]).ids = [1, 2] ∧
    (Win.run Win.State.init [Win.Call.startProcess winCalls0 winInfo0,
        Win.Call.connect winCalls0 winConnect1, Win.Call.startProcess winCalls0 winInfo0,
        Win.Call.kill winCalls0 [JsValue.number 1]]).ids.Nodup :=
  ⟨by decide,
    (registry_ids_distinct_below_wrap [Win.Call.startProcess winCalls0 winInfo0,
        Win.Call.connect winCalls0 winConnect1, Win.Call.startProcess winCalls0 winInfo0,
        Win.Call.kill winCalls0 [JsValue.number 1]] (by decide)).1⟩

/-! ## Kill, resize and the console list -/

theorem PtyKill_found (st : Win.State) (os : Win.Calls) (info : CallbackInfo)
    (handle : Win.pty_baton) (hargs : Win.PtyKill_badArgs info = false)
    (hfound : Win.get_pty_baton st.ptyHandles (info.at 0).AsInt = some handle) :
    Win.PtyKill st os info =
      (st, Outcome.undefined,
        (if os.LoadLibraryExW && os.GetProcAddress "ClosePseudoConsole" then
          [Win.Event.ClosePseudoConsole handle.hpc] else []) ++
        [Win.Event.DisconnectNamedPipe handle.hIn, Win.Event.DisconnectNamedPipe handle.hOut,
          Win.Event.CloseHandle handle.hIn, Win.Event.CloseHandle handle.hOut,
          Win.Event.CloseHandle handle.hShell]) := by
  simp only [Win.PtyKill, hargs, hfound, if_false, Bool.false_eq_true]

/-- C12 (the code at the failing input): `PtyKill` leaves the session in the
registry with its handles as they were, so a second kill of the same id finds it
again, reports nothing, and calls `CloseHandle` on the input pipe, the output
pipe and the process handle (and `ClosePseudoConsole` when the API resolves) a
second time. -/
theorem PtyKill_twice_closes_again (st : Win.State) (os1 os2 : Win.Calls)
    (info : CallbackInfo) (handle : Win.pty_baton)
    (hargs : Win.PtyKill_badArgs info = false)
    (hfound : Win.get_pty_baton st.ptyHandles (info.at 0).AsInt = some handle) :
    (Win.PtyKill st os1 info).1 = st ∧
    (Win.PtyKill (Win.PtyKill st os1 info).1 os2 info).2.1 = Outcome.undefined ∧
    (∀ e ∈ (Win.PtyKill (Win.PtyKill st os1 info).1 os2 info).2.2,
      ∀ m, e ≠ Win.Event.threw m) ∧
    2 ≤ closeCount handle.hIn
      ((Win.PtyKill st os1 info).2.2 ++ (Win.PtyKill (Win.PtyKill st os1 info).1 os2 info).2.2) ∧
    2 ≤ closeCount handle.hOut
      ((Win.PtyKill st os1 info).2.2 ++ (Win.PtyKill (Win.PtyKill st os1 info).1 os2 info).2.2) ∧
    2 ≤ closeCount handle.hShell
      ((Win.PtyKill st os1 info).2.2 ++ (Win.PtyKill (Win.PtyKill st os1 info).1 os2 info).2.2) ∧
    (os1.LoadLibraryExW = true → os1.GetProcAddress "ClosePseudoConsole" = true →
      os2.LoadLibraryExW = true → os2.GetProcAddress "ClosePseudoConsole" = true →
      2 ≤ closeConsoleCount handle.hpc
        ((Win.PtyKill st os1 info).2.2 ++
          (Win.PtyKill (Win.PtyKill st os1 info).1 os2 info).2.2)) := by
  have h1 := PtyKill_found st os1 info handle hargs hfound
  have h2 := PtyKill_found st os2 info handle hargs hfound
  have hst : (Win.PtyKill st os1 info).1 = st := by rw [h1]
  rw [hst]
  refine ⟨rfl, by rw [h2], ?_, ?_, ?_, ?_, ?_⟩
  · rw [h2]
    intro e he m hm
    subst hm
    cases hc : (os2.LoadLibraryExW && os2.GetProcAddress "ClosePseudoConsole") <;>
      simp [hc] at he
  · rw [h1, h2]
    simp only [closeCount, List.count_append]
    have : 1 ≤ List.count (Win.Event.CloseHandle handle.hIn)
        [Win.Event.DisconnectNamedPipe handle.hIn, Win.Event.DisconnectNamedPipe handle.hOut,
          Win.Event.CloseHandle handle.hIn, Win.Event.CloseHandle handle.hOut,
          Win.Event.CloseHandle handle.hShell] :=
      List.count_pos_iff.mpr (by simp)
    omega
  · rw [h1, h2]
    simp only [closeCount, List.count_append]
    have : 1 ≤ List.count (Win.Event.CloseHandle handle.hOut)
        [Win.Event.DisconnectNamedPipe handle.hIn, Win.Event.DisconnectNamedPipe handle.hOut,
          Win.Event.CloseHandle handle.hIn, Win.Event.CloseHandle handle.hOut,
          Win.Event.CloseHandle handle.hShell] :=
      List.count_pos_iff.mpr (by simp)
    omega
  · rw [h1, h2]
    simp only [closeCount, List.count_append]
    have : 1 ≤ List.count (Win.Event.CloseHandle handle.hShell)
        [Win.Event.DisconnectNamedPipe handle.hIn, Win.Event.DisconnectNamedPipe handle.hOut,
          Win.Event.CloseHandle handle.hIn, Win.Event.CloseHandle handle.hOut,
          Win.Event.CloseHandle handle.hShell] :=
      List.count_pos_iff.mpr (by simp)
    omega
  · intro a1 b1 a2 b2
    rw [h1, h2]
    simp only [a1, b1, a2, b2, Bool.and_self, if_true, closeConsoleCount, List.count_append]
    have : 1 ≤ List.count (Win.Event.ClosePseudoConsole handle.hpc)
        [Win.Event.ClosePseudoConsole handle.hpc] :=
      List.count_pos_iff.mpr (by simp)
    omega

theorem PtyKill_twice_closes_again_witness :
    closeCount 100 (Win.runTrace winConnected
        [Win.Call.kill winCalls0 [JsValue.number 1], Win.Call.kill winCalls0 [JsValue.number 1]])
      = 2 ∧
    closeCount 300 (Win.runTrace winConnected
        [Win.Call.kill winCalls0 [JsValue.number 1], Win.Call.kill winCalls0 [JsValue.number 1]])
      = 2 ∧
    2 ≤ closeCount 100
      ((Win.PtyKill winConnected winCalls0 [JsValue.number 1]).2.2 ++
        (Win.PtyKill (Win.PtyKill winConnected winCalls0 [JsValue.number 1]).1 winCalls0
          [JsValue.number 1]).2.2) :=
  ⟨by decide, by decide,
    (PtyKill_twice_closes_again winConnected winCalls0 winCalls0 [JsValue.number 1]
      { id := 1, hIn := 100, hOut := 101, hpc := 200, hShell := 300,
        hWait := some (PtyConnect_wait 1 300), cb := some 9 }
      (by decide) (by decide)).2.2.2.1⟩

/-- C13 (counterexample): on Windows a resize of an id that is not in the
registry returns `undefined` normally: no error, no call, no change. -/
theorem PtyResize_unknown_id_returns_normally :
    Win.get_pty_baton Win.State.init.ptyHandles 5 = none ∧
    Win.PtyResize Win.State.init winCalls0
        [JsValue.number 5, JsValue.number 80, JsValue.number 24]
      = (Win.State.init, Outcome.undefined, []) := by
  constructor <;> decide

/-- C13 (amended): on POSIX every resize whose size-setting `ioctl` is rejected
reports an error (the message names EBADF, EFAULT, EINVAL or ENOTTY, or is the
plain one); on Windows a resize of an id that is not in the registry reports
nothing: it returns normally, calls nothing and leaves the registry as it was. -/
theorem resize_invalid_target (P : Platform) (os : Syscalls) (info : CallbackInfo)
    (st : Win.State) (wos : Win.Calls) (winfo : CallbackInfo) :
    (PtyResize_badArgs info = false →
      (os.ioctl (info.at 0).AsInt (ws_field (info.at 1), ws_field (info.at 2))).1 = -1 →
      ∃ m ∈ ["ioctl(2) failed, EBADF", "ioctl(2) failed, EFAULT", "ioctl(2) failed, EINVAL",
          "ioctl(2) failed, ENOTTY", "ioctl(2) failed"],
        PtyResize P os info = (Outcome.thrown m, [Event.threw m])) ∧
    (Win.PtyResize_badArgs winfo = false →
      Win.get_pty_baton st.ptyHandles (winfo.at 0).AsInt = none →
      Win.PtyResize st wos winfo = (st, Outcome.undefined, [])) := by
  constructor
  · intro hargs hfail
    simp only [PtyResize, hargs, hfail, if_false, Bool.false_eq_true, beq_self_eq_true, if_true]
    split_ifs
    · exact ⟨_, by simp, rfl⟩
    · exact ⟨_, by simp, rfl⟩
    · exact ⟨_, by simp, rfl⟩
    · exact ⟨_, by simp, rfl⟩
    · exact ⟨_, by simp, rfl⟩
  · intro hargs hnone
    simp only [Win.PtyResize, hargs, hnone, if_false, Bool.false_eq_true]

/-! ## Terminal geometry -/

theorem ws_field_number (c : Int) :
    ws_field (JsValue.number c) = (c % 65536).toNat := by
  simp only [ws_field, JsValue.Uint32Value]
  omega

theorem PtyResize_winp_numbers (fd c r : Int) :
    PtyResize_winp [JsValue.number fd, JsValue.number c, JsValue.number r]
      = { ws_row := (r % 65536).toNat, ws_col := (c % 65536).toNat, ws_xpixel := 0,
          ws_ypixel := 0 } := by
  have h1 : CallbackInfo.at [JsValue.number fd, JsValue.number c, JsValue.number r] 1
      = JsValue.number c := rfl
  have h2 : CallbackInfo.at [JsValue.number fd, JsValue.number c, JsValue.number r] 2
      = JsValue.number r := rfl
  simp only [PtyResize_winp, h1, h2, ws_field_number c, ws_field_number r]

/-- C14 (counterexample): a successful `resize(3, 65616, 24)` sets 80 columns,
not 65616: the `unsigned short` field keeps the bottom 16 bits. -/
theorem PtyResize_columns_wrap :
    (PtyResize linux os0 [JsValue.number 3, JsValue.number 65616, JsValue.number 24]).1
        = Outcome.undefined ∧
    ttyAfterResize linux os0 [JsValue.number 3, JsValue.number 65616, JsValue.number 24]
        { ws_row := 1, ws_col := 1, ws_xpixel := 0, ws_ypixel := 0 }
      = { ws_row := 24, ws_col := 80, ws_xpixel := 0, ws_ypixel := 0 } ∧
    (80 : Nat) ≠ 65616 := by
  refine ⟨?_, ?_, ?_⟩ <;> decide

/-- C14 (amended): for all non-negative integers c and r, the geometry a
successful `resize(fd, c, r)` sets is (columns = c mod 65536, rows = r mod
65536) with pixel sizes 0, which is exactly (c, r) when both are below 65536;
resizing twice to (c, r) leaves the same geometry as resizing once.  On Windows
the size handed to the pseudo-console is (c, r) read as 16-bit `SHORT`s. -/
theorem PtyResize_geometry (P : Platform) (os : Syscalls) (fd c r : Int) (tty : winsize)
    (hc : 0 ≤ c) (hr : 0 ≤ r)
    (hok : (PtyResize P os [JsValue.number fd, JsValue.number c, JsValue.number r]).1
      = Outcome.undefined) :
    ttyAfterResize P os [JsValue.number fd, JsValue.number c, JsValue.number r] tty
        = { ws_row := (r % 65536).toNat, ws_col := (c % 65536).toNat, ws_xpixel := 0,
            ws_ypixel := 0 } ∧
    (c < 65536 → r < 65536 →
      ttyAfterResize P os [JsValue.number fd, JsValue.number c, JsValue.number r] tty
        = { ws_row := r.toNat, ws_col := c.toNat, ws_xpixel := 0, ws_ypixel := 0 }) ∧
    ttyAfterResize P os [JsValue.number fd, JsValue.number c, JsValue.number r]
        (ttyAfterResize P os [JsValue.number fd, JsValue.number c, JsValue.number r] tty)
      = ttyAfterResize P os [JsValue.number fd, JsValue.number c, JsValue.number r] tty ∧
    (∀ (st : Win.State) (wos : Win.Calls) (e : Win.Event),
      e ∈ (Win.PtyResize st wos [JsValue.number fd, JsValue.number c, JsValue.number r]).2.2 →
      ∃ hpc, e = Win.Event.ResizePseudoConsole hpc
        (Win.toSHORT (c % 4294967296)) (Win.toSHORT (r % 4294967296))) := by
  have hgeo : ttyAfterResize P os [JsValue.number fd, JsValue.number c, JsValue.number r] tty
      = { ws_row := (r % 65536).toNat, ws_col := (c % 65536).toNat, ws_xpixel := 0,
          ws_ypixel := 0 } := by
    unfold ttyAfterResize
    rw [if_pos hok, PtyResize_winp_numbers fd c r]
  have hidem : ∀ t, ttyAfterResize P os [JsValue.number fd, JsValue.number c, JsValue.number r] t
      = PtyResize_winp [JsValue.number fd, JsValue.number c, JsValue.number r] := by
    intro t
    unfold ttyAfterResize
    rw [if_pos hok]
  refine ⟨hgeo, ?_, by rw [hidem, hidem], ?_⟩
  · intro hc' hr'
    rw [hgeo, Int.emod_eq_of_lt hc hc', Int.emod_eq_of_lt hr hr']
  · intro st wos e he
    have hb : Win.PtyResize_badArgs [JsValue.number fd, JsValue.number c, JsValue.number r]
        = false := rfl
    have h1 : (CallbackInfo.at [JsValue.number fd, JsValue.number c, JsValue.number r] 1).Uint32Value
        = (c % 4294967296).toNat := rfl
    have h2 : (CallbackInfo.at [JsValue.number fd, JsValue.number c, JsValue.number r] 2).Uint32Value
        = (r % 4294967296).toNat := rfl
    have hc2 : (((c % 4294967296).toNat : Nat) : Int) = c % 4294967296 := by omega
    have hr2 : (((r % 4294967296).toNat : Nat) : Int) = r % 4294967296 := by omega
    simp only [Win.PtyResize, hb, if_false, Bool.false_eq_true, h1, h2, hc2, hr2] at he
    split at he
    · split at he
      · simp only [List.mem_singleton] at he
        exact ⟨_, he⟩
      · simp at he
    · simp at he

theorem PtyResize_geometry_witness :
    ttyAfterResize linux os0 [JsValue.number 3, JsValue.number 80, JsValue.number 24]
        { ws_row := 1, ws_col := 1, ws_xpixel := 0, ws_ypixel := 0 }
      = { ws_row := (24 % 65536 : Int).toNat, ws_col := (80 % 65536 : Int).toNat,
          ws_xpixel := 0, ws_ypixel := 0 } :=
  (PtyResize_geometry linux os0 3 80 24
    { ws_row := 1, ws_col := 1, ws_xpixel := 0, ws_ypixel := 0 }
    (by decide) (by decide) (by decide)).1

/-! ## The console process list -/

/-- For a process id below 32768 the id handed to `AttachConsole` is the id given. -/
theorem ApiConsoleProcessList_small_pid (os : ConsoleList.Calls) (p : Int)
    (h0 : 0 ≤ p) (h1 : p < 32768) :
    ConsoleList.attachedTo (ConsoleList.ApiConsoleProcessList os [JsValue.number p]).2
      = some p.toNat := by
  have hb : ConsoleList.badArgs [JsValue.number p] = false := rfl
  have hu : (CallbackInfo.at [JsValue.number p] 0).Uint32Value = (p % 4294967296).toNat := rfl
  have hd : Win.toDWORD (Win.toSHORT ((p % 4294967296).toNat : Nat)) = p.toNat := by
    unfold Win.toDWORD Win.toSHORT
    omega
  simp only [ConsoleList.ApiConsoleProcessList, hb, hu, hd, if_false, Bool.false_eq_true]
  cases hF : os.FreeConsole <;> cases hA : os.AttachConsole p.toNat <;>
    simp [ConsoleList.attachedTo]

/-- C15 (the code at the failing input): the process id is first stored in a
16-bit `SHORT`, so for the process id 40000 the id handed to `AttachConsole` is
4294941760, and for 70000 it is 4464, the id of another process; 1234 is handed
on as it is. -/
theorem ApiConsoleProcessList_attaches_to_truncated_pid :
    ConsoleList.attachedTo
        (ConsoleList.ApiConsoleProcessList consoleCalls0 [JsValue.number 40000]).2
      = some 4294941760 ∧
    ConsoleList.attachedTo
        (ConsoleList.ApiConsoleProcessList consoleCalls0 [JsValue.number 70000]).2
      = some 4464 ∧
    ConsoleList.attachedTo
        (ConsoleList.ApiConsoleProcessList consoleCalls0 [JsValue.number 1234]).2
      = some 1234 := by
  refine ⟨?_, ?_, ?_⟩ <;> decide

/-! ## Failures of the create phase -/

theorem Win.create_trace_no_threw (os : Win.Calls) (cols rows : Int) (dwFlags : Nat)
    (pipeName : String) :
    ∀ e ∈ (Win.CreateNamedPipesAndPseudoConsole os cols rows dwFlags pipeName).trace,
      ∀ m, e ≠ Win.Event.threw m := by
  intro e he m hm
  subst hm
  unfold Win.CreateNamedPipesAndPseudoConsole at he
  cases hL : os.LoadLibraryExW
  · simp [hL] at he
  · cases hG : os.GetProcAddress "CreatePseudoConsole"
    · simp [hL, hG] at he
    · cases h1 : (Win.createDataServerPipe os "in" pipeName).1
      · simp [hL, hG, h1] at he
      · cases h2 : (Win.createDataServerPipe os "out" pipeName).1
        · simp [hL, hG, h1, h2] at he
        · simp [hL, hG, h1, h2] at he

/-- C16 (counterexample): the create phase reports the same error, "Cannot launch
conpty", when the pseudo-console API is absent, when a named pipe cannot be
created and when `CreatePseudoConsole` itself fails, although the three causes
give three different `HRESULT`s inside. -/
theorem PtyStartProcess_same_error_for_all_causes :
    (Win.PtyStartProcess Win.State.init winCallsNoApi winInfo0).2.1
      = Outcome.thrown "Cannot launch conpty" ∧
    (Win.PtyStartProcess Win.State.init winCallsNoPipe winInfo0).2.1
      = Outcome.thrown "Cannot launch conpty" ∧
    (Win.PtyStartProcess Win.State.init winCallsNoConsole winInfo0).2.1
      = Outcome.thrown "Cannot launch conpty" ∧
    (Win.PtyStartProcess_create winCallsNoApi winInfo0).hr = -2147024769 ∧
    (Win.PtyStartProcess_create winCallsNoPipe winInfo0).hr = -2147024891 ∧
    (Win.PtyStartProcess_create winCallsNoConsole winInfo0).hr = -2147467259 := by
  refine ⟨?_, ?_, ?_, ?_, ?_, ?_⟩ <;> decide

/-- C16 (amended): every failure of the create phase that comes from
`CreateNamedPipesAndPseudoConsole` (the API cannot be resolved, a named pipe
cannot be created, the pseudo-console cannot be created) is reported with the
one message "Cannot launch conpty" and leaves the registry as it was; the cause
is not part of what is reported.  A missing executable is the only create
failure reported differently. -/
theorem PtyStartProcess_failure_is_generic (st : Win.State) (os : Win.Calls)
    (info : CallbackInfo) (hb : Win.PtyStartProcess_badArgs info = false)
    (hf : ((Win.PtyStartProcess_shellpath os info).isEmpty ||
      !os.file_exists (Win.PtyStartProcess_shellpath os info)) = false)
    (hs : Win.SUCCEEDED (Win.PtyStartProcess_create os info).hr = false) :
    (Win.PtyStartProcess st os info).2.1 = Outcome.thrown "Cannot launch conpty" ∧
    (Win.PtyStartProcess st os info).1 = st ∧
    (∀ m, Win.Event.threw m ∈ (Win.PtyStartProcess st os info).2.2 →
      m = "Cannot launch conpty") := by
  rw [Win.PtyStartProcess_failure st os info hb hf hs]
  refine ⟨rfl, rfl, ?_⟩
  intro m hm
  rcases List.mem_append.mp hm with h | h
  · exact absurd rfl (Win.create_trace_no_threw os _ _ _ _ _ h m)
  · simp only [List.mem_singleton, Win.Event.threw.injEq] at h
    exact h

theorem PtyStartProcess_failure_is_generic_witness :
    (Win.PtyStartProcess Win.State.init winCallsNoApi winInfo0).2.1
        = Outcome.thrown "Cannot launch conpty" ∧
    (Win.PtyStartProcess Win.State.init winCallsNoApi winInfo0).1 = Win.State.init ∧
    (∀ m, Win.Event.threw m ∈ (Win.PtyStartProcess Win.State.init winCallsNoApi winInfo0).2.2 →
      m = "Cannot launch conpty") :=
  PtyStartProcess_failure_is_generic Win.State.init winCallsNoApi winInfo0
    (by decide) (by decide) (by decide)

/-! ## A child without a session -/

theorem spawnedPids_upToRead (P : Platform) (os : Syscalls) (info : CallbackInfo)
    (m s r w : Int) (hsp : os.spawn_error = 0) (tail : List Event)
    (htail : spawnedPids tail = []) :
    spawnedPids (PtyFork_upToRead P os info m s r w ++ tail) = [os.spawn_pid] := by
  simp [PtyFork_upToRead, spawnedPids, hsp, htail]

theorem watchedPids_upToRead (P : Platform) (os : Syscalls) (info : CallbackInfo)
    (m s r w : Int) (tail : List Event) :
    watchedPids (PtyFork_upToRead P os info m s r w ++ tail) = watchedPids tail := by
  simp [PtyFork_upToRead, watchedPids]

/-- C17 (the code at the failing input): when the helper exec'd the target (the
read of the error-report channel is not a full record) and the master cannot be
made non-blocking, `PtyFork` reports the failure and returns with the child it
spawned still there: the pid was spawned, no exit watcher was started for it, no
session was returned, and nothing in the call ends or reaps the child. -/
theorem PtyFork_nonblock_failure_leaves_child (P : Platform) (os : Syscalls)
    (info : CallbackInfo) (m s r w : Int) (hargs : PtyFork_badArgs info = false)
    (hpty : os.openpty = some (m, s)) (hpipe : os.pipe = some (r, w))
    (hsp : os.spawn_error = 0) (hshort : os.bytes_read ≠ sizeof_helper_error)
    (hnb : pty_nonblock os m = -1) :
    (PtyFork P os info).1 = Outcome.thrown "Could not set master fd to nonblocking." ∧
    spawnedPids (PtyFork P os info).2 = [os.spawn_pid] ∧
    watchedPids (PtyFork P os info).2 = [] ∧
    (PtyFork P os info).2 = PtyFork_upToRead P os info m s r w ++
      [Event.threw "Could not set master fd to nonblocking.", Event.free "argv",
        Event.free "envp", Event.free "helper_path"] := by
  rw [PtyFork_short_read_eq P os info m s r w hargs hpty hpipe hsp hshort, if_pos hnb]
  refine ⟨rfl, ?_, ?_, ?_⟩
  · rw [List.append_assoc]
    exact spawnedPids_upToRead P os info m s r w hsp _ rfl
  · rw [List.append_assoc, watchedPids_upToRead]
    rfl
  · rw [List.append_assoc]
    rfl

theorem PtyFork_nonblock_failure_leaves_child_witness :
    (PtyFork linux { os0 with getfl := fun _ => -1 } info0).1
        = Outcome.thrown "Could not set master fd to nonblocking." ∧
    spawnedPids (PtyFork linux { os0 with getfl := fun _ => -1 } info0).2 = [4242] ∧
    watchedPids (PtyFork linux { os0 with getfl := fun _ => -1 } info0).2 = [] :=
  ⟨(PtyFork_nonblock_failure_leaves_child linux { os0 with getfl := fun _ => -1 } info0
      10 11 12 13 (by decide) rfl rfl rfl (by decide) (by decide)).1,
    by decide, by decide⟩

/-! ## The fatal assertion of the watcher -/

/-- C18: with `assert` active, a wait that returns anything other than the
watched pid, and is neither an interruption (-1 with EINTR) nor "no such child"
(-1 with ECHILD), ends the watcher in its assertion: no notification is sent and
the exit state is not written, whatever the error code. -/
theorem pty_waitpid_other_failure_is_fatal (P : Platform) (baton : pty_baton)
    (w : WaitReturn) (rest : List WaitReturn) (hassert : P.NDEBUG = false)
    (hret : w.ret ≠ baton.pid)
    (hintr : ¬ (w.ret = -1 ∧ w.errno = P.EINTR))
    (hchild : ¬ (w.ret = -1 ∧ w.errno = P.ECHILD)) :
    pty_waitpid P baton (w :: rest)
        = { baton := baton, trace := [WatchEvent.assert_failed], ending := WatchEnd.aborted } ∧
    (pty_waitpid P baton (w :: rest)).notification = none ∧
    (pty_waitpid P baton (w :: rest)).baton = baton ∧
    WatchEvent.uv_async_send ∉ (pty_waitpid P baton (w :: rest)).trace := by
  have hrun : pty_waitpid P baton (w :: rest)
      = { baton := baton, trace := [WatchEvent.assert_failed], ending := WatchEnd.aborted } := by
    have h1 : (w.ret != baton.pid) = true := by simpa using hret
    have h2 : (w.ret == -1 && w.errno == P.EINTR) = false := by
      simpa [Bool.and_eq_false_iff, or_iff_not_imp_left] using fun h => (not_and.mp hintr) h
    have h3 : (w.ret == -1 && w.errno == P.ECHILD) = false := by
      simpa [Bool.and_eq_false_iff, or_iff_not_imp_left] using fun h => (not_and.mp hchild) h
    simp only [pty_waitpid, h1, h2, h3, hassert, if_true, if_false, Bool.false_eq_true]
  rw [hrun]
  exact ⟨rfl, by simp [WatchRun.notification], rfl, by simp⟩

theorem pty_waitpid_other_failure_is_fatal_witness :
    pty_waitpid linux (PtyFork_baton 4242) [⟨-1, 22, 256⟩, ⟨4242, 0, 0⟩]
        = { baton := PtyFork_baton 4242, trace := [WatchEvent.assert_failed],
            ending := WatchEnd.aborted } ∧
    (pty_waitpid linux (PtyFork_baton 4242) [⟨-1, 22, 256⟩, ⟨4242, 0, 0⟩]).notification = none ∧
    (pty_waitpid linux (PtyFork_baton 4242) [⟨-1, 22, 256⟩, ⟨4242, 0, 0⟩]).baton
        = PtyFork_baton 4242 ∧
    WatchEvent.uv_async_send ∉
      (pty_waitpid linux (PtyFork_baton 4242) [⟨-1, 22, 256⟩, ⟨4242, 0, 0⟩]).trace :=
  pty_waitpid_other_failure_is_fatal linux (PtyFork_baton 4242) ⟨-1, 22, 256⟩ [⟨4242, 0, 0⟩]
    rfl (by decide) (by decide) (by decide)

/-! ## The environment block of `PtyConnect` -/

theorem envBlockStrings_cons_other (c : Char) (rest cur : List Char) (hc : c ≠ Char.ofNat 0) :
    Win.envBlockStrings (c :: rest) cur = Win.envBlockStrings rest (c :: cur) := by
  rw [Win.envBlockStrings, if_neg hc]

theorem envBlockStrings_cons_nul (rest cur : List Char) :
    Win.envBlockStrings (Char.ofNat 0 :: rest) cur
      = if cur = [] then [] else cur.reverse :: Win.envBlockStrings rest [] := by
  rw [Win.envBlockStrings, if_pos rfl]

theorem envBlockStrings_entry (s : List Char) (hs : ∀ c ∈ s, c ≠ Char.ofNat 0) :
    ∀ (cur rest : List Char),
      Win.envBlockStrings (s ++ Char.ofNat 0 :: rest) cur =
        if cur.reverse ++ s = [] then [] else (cur.reverse ++ s) :: Win.envBlockStrings rest [] := by
  induction s with
  | nil =>
    intro cur rest
    rw [List.nil_append, envBlockStrings_cons_nul]
    simp
  | cons c s ih =>
    intro cur rest
    have hc : c ≠ Char.ofNat 0 := hs c (List.mem_cons_self _ _)
    have ih' := ih (fun x hx => hs x (List.mem_cons_of_mem _ hx)) (c :: cur) rest
    rw [List.cons_append, envBlockStrings_cons_other c _ cur hc, ih']
    simp

theorem envBlockStrings_block (entries : List (List Char))
    (h : ∀ e ∈ entries, e ≠ [] ∧ ∀ c ∈ e, c ≠ Char.ofNat 0) :
    Win.envBlockStrings ((entries.map (fun e => e ++ [Char.ofNat 0])).flatten ++ [Char.ofNat 0]) []
      = entries := by
  induction entries with
  | nil =>
    show Win.envBlockStrings [Char.ofNat 0] [] = []
    rw [envBlockStrings_cons_nul]
    rfl
  | cons e rest ih =>
    have he := h e (List.mem_cons_self _ _)
    have ih' := ih (fun x hx => h x (List.mem_cons_of_mem _ hx))
    simp only [List.map_cons, List.flatten_cons, List.append_assoc, List.singleton_append,
      List.cons_append]
    rw [envBlockStrings_entry e he.2]
    simp only [List.reverse_nil, List.nil_append, he.1, if_false]
    rw [ih']

/-- C19: the environment block `PtyConnect` hands to process creation is the
caller's entries (converted by `to_wstring`) in their order, each followed by
one NUL, then one final NUL, and it is never the null pointer: for an empty list
it is the block holding a single NUL.  Read back as NUL-terminated strings the
block gives the entries again whenever none of them is empty or holds a NUL. -/
theorem PtyConnect_environment_block (os : Win.Calls) (entries : List String) :
    Win.PtyConnect_envArg os (JsValue.array entries)
        = some ((entries.map (fun v => (os.to_wstring v).data ++ [Char.ofNat 0])).flatten
            ++ [Char.ofNat 0]) ∧
    Win.PtyConnect_envArg os (JsValue.array []) = some [Char.ofNat 0] ∧
    ((∀ v ∈ entries, (os.to_wstring v).data ≠ [] ∧ ∀ c ∈ (os.to_wstring v).data, c ≠ Char.ofNat 0) →
      Win.envBlockStrings
          ((entries.map (fun v => (os.to_wstring v).data ++ [Char.ofNat 0])).flatten
            ++ [Char.ofNat 0]) []
        = entries.map (fun v => (os.to_wstring v).data)) ∧
    (∀ (st : Win.State) (info : CallbackInfo) (cmdline cwd : String) (env : Option (List Char)),
      Win.Event.CreateProcessW cmdline env cwd ∈ (Win.PtyConnect st os info).2.2 →
      env = Win.PtyConnect_envArg os (info.at 3)) := by
  have hblock : ∀ l : List String, Win.PtyConnect_envArg os (JsValue.array l)
      = some ((l.map (fun v => (os.to_wstring v).data ++ [Char.ofNat 0])).flatten
          ++ [Char.ofNat 0]) := by
    intro l
    simp [Win.PtyConnect_envArg, Win.PtyConnect_env, Win.vectorFromString, Win.IsEmpty,
      JsValue.AsArray]
  refine ⟨hblock entries, by rw [hblock]; rfl, ?_, ?_⟩
  · intro h
    have := envBlockStrings_block (entries.map (fun v => (os.to_wstring v).data)) (by
      intro e he
      obtain ⟨v, hv, rfl⟩ := List.mem_map.mp he
      exact h v hv)
    simpa [List.map_map, Function.comp] using this
  · intro st info cmdline cwd env hmem
    unfold Win.PtyConnect at hmem
    cases hb : Win.PtyConnect_badArgs info
    · simp only [hb, if_false, Bool.false_eq_true] at hmem
      cases hg : Win.get_pty_baton st.ptyHandles (info.at 0).AsInt with
      | none => simp [hg] at hmem
      | some handle =>
        cases hi : os.InitializeProcThreadAttributeList
        · simp [hg, hi] at hmem
        · cases hu : os.UpdateProcThreadAttribute
          · simp [hg, hi, hu] at hmem
          · cases hp : os.CreateProcessW with
            | none =>
              simp [hg, hi, hu, hp] at hmem
              exact hmem.2.1
            | some pr =>
              simp [hg, hi, hu, hp] at hmem
              exact hmem.2.1
    · simp [hb] at hmem

end NodePty
